import Mathlib

/-!
# Effect traces of the message-broker example programs

Every file of the repository is one Go program: a `main` that calls a client
library, prints or logs, and exits or blocks.  A program is embedded as a
function from the answers the outside world gives (the error results of the
library calls, the inbound deliveries) to a `Run`: the list of effects the
program performs, in order, and the way the run ends.

Conventions of the embedding.

* A Go `string` and a Go `[]byte` are both a sequence of bytes and the
  conversions `[]byte(s)` and `string(b)` keep the content; both are embedded
  as the Lean `String` with that content.
* An `error` is embedded as the text of its `Error()` method; `nil` is `none`.
* A line written through package `log` is recorded without its time stamp.
* `log.Fatal` and `log.Fatalf` write the line and call `os.Exit(1)`: deferred
  calls do not run.  `panic` unwinds the stack, running the deferred calls, and
  then the runtime writes its report and exits with status 2.
* A call whose results the program discards is recorded with error `none`.
-/

namespace KafkaTest

/-- Entry points of the client libraries and of the Go runtime the programs
are written against. -/
inductive Api
  | netDial               -- net.Dial
  | stompConnect          -- stomp.Connect
  | stompSubscribe        -- (*stomp.Conn).Subscribe
  | stompSend             -- (*stomp.Conn).Send
  | stompDisconnect       -- (*stomp.Conn).Disconnect
  | stompUnsubscribe      -- (*stomp.Subscription).Unsubscribe
  | stompChanRecv         -- a receive on sub.C
  | stompAck              -- (*stomp.Conn).Ack
  | kafkaNewProducer      -- kafka.NewProducer (confluent)
  | kafkaProduce          -- (*kafka.Producer).Produce
  | kafkaFlush            -- (*kafka.Producer).Flush
  | kafkaClose            -- (*kafka.Producer).Close
  | osGetenv              -- os.Getenv
  | scramMechanism        -- scram.Mechanism
  | kafkaWriterClose      -- (*kafka.Writer).Close (segmentio)
  | nsqNewConsumer        -- nsq.NewConsumer
  | nsqAddHandler         -- (*nsq.Consumer).AddHandler
  | nsqConnectToNSQD      -- (*nsq.Consumer).ConnectToNSQD
  | nsqHandleMessage      -- the library handing a message to the handler
  | nsqFinish             -- (*nsq.Message).Finish
  | nsqNewProducer        -- nsq.NewProducer
  | nsqPublish            -- (*nsq.Producer).Publish
  | nsqStop               -- (*nsq.Producer).Stop
  | redisNewClient        -- redis.NewClient
  | redisSubscribe        -- (*redis.Client).Subscribe
  | redisReceive          -- (*redis.PubSub).Receive
  | redisChannel          -- (*redis.PubSub).Channel
  | redisChanRecv         -- a receive on the channel of the subscription
  | redisPubSubClose      -- (*redis.PubSub).Close
  | redisPublish          -- (*redis.Client).Publish
  | timeSleep             -- time.Sleep
  | pulsarNewClient       -- pulsar.NewClient
  | pulsarClientClose     -- Client.Close
  | pulsarCreateProducer  -- Client.CreateProducer
  | pulsarSend            -- Producer.Send
  | pulsarProducerClose   -- Producer.Close
  | pulsarSubscribe       -- Client.Subscribe
  | pulsarReceive         -- Consumer.Receive
  | pulsarAck             -- Consumer.Ack
  | pulsarConsumerClose   -- Consumer.Close
  deriving DecidableEq, Repr

/-- SASL mechanism value built by `scram.Mechanism`: the algorithm and the
credentials it was made from. -/
structure Mechanism where
  algorithm : String
  username : String
  password : String
  deriving DecidableEq, Repr

/-- Fields of the `kafka.Writer` literal of upstash.go.  `Addr` is the text of
the address value that `kafka.TCP` returned.  `Transport` is the
`kafka.Transport` literal: its SASL mechanism, and whether a TLS
configuration is set. -/
structure Writer where
  Addr : String
  Topic : String
  SASL : Mechanism
  TLS : Bool
  deriving DecidableEq, Repr

/-- Fields of a `kafka.Message` literal of upstash.go. -/
structure Message where
  Key : String
  Value : String
  deriving DecidableEq, Repr

/-- One observable step of a program. -/
inductive Effect
  /-- a library call, its arguments, and the error it returned -/
  | call (api : Api) (args : List String) (err : Option String)
  /-- `w.WriteMessages(ctx, msgs...)` on the writer `w` -/
  | writeMessages (w : Writer) (msgs : List Message) (err : Option String)
  /-- `log.Println` or `log.Printf`: a line on standard error -/
  | log (line : String)
  /-- `log.Fatal` or `log.Fatalf`: the line, followed by `os.Exit(1)` -/
  | fatal (line : String)
  /-- `fmt.Println` or `fmt.Printf`: text on standard output -/
  | print (text : String)
  /-- the report of the runtime for an unrecovered panic with this value -/
  | panic (value : String)
  deriving DecidableEq, Repr

/-- How a run ends. -/
inductive Outcome
  /-- `main` returned: exit status 0 -/
  | returned
  /-- `os.Exit(1)` inside `log.Fatal`: deferred calls are skipped -/
  | fatal
  /-- an unrecovered panic with this value: exit status 2 -/
  | panicked (value : String)
  /-- not ended: blocked on input, or still looping, when the observed
  answers of the outside world are used up -/
  | running
  deriving DecidableEq, Repr

/-- Effects of a run, oldest first, and the way it ends. -/
structure Run where
  trace : List Effect
  outcome : Outcome
  deriving DecidableEq, Repr

/-- The effects `pre` followed by the run `r`. -/
def Run.after (pre : List Effect) (r : Run) : Run :=
  ⟨pre ++ r.trace, r.outcome⟩

/-- A statement `defer d` followed by the rest `r` of the function body: `d`
runs when the body returns or panics, and does not run when the process
exits inside the body or the body never ends. -/
def Run.defer (d : Effect) (r : Run) : Run :=
  match r.outcome with
  | Outcome.returned => ⟨r.trace ++ [d], r.outcome⟩
  | Outcome.panicked _ => ⟨r.trace ++ [d], r.outcome⟩
  | Outcome.fatal => r
  | Outcome.running => r

/-- End of the process: a panic that reached the top of the stack is reported
by the runtime. -/
def Run.exit (r : Run) : Run :=
  match r.outcome with
  | Outcome.panicked v => ⟨r.trace ++ [Effect.panic v], r.outcome⟩
  | _ => r

/-- Text of the runtime error raised by a field access through a nil
pointer. -/
def nilDereference : String :=
  "runtime error: invalid memory address or nil pointer dereference"

/-! ## src/activemq/producer.go -/

namespace ActivemqProducer

/-- Answers of the outside world to the calls of the program. -/
structure World where
  dialErr : Option String
  connectErr : Option String
  sendErr : Option String

/-- Local `destination` of `main`. -/
def destination : String := "/queue/test"

/-- Local `body` of `main`. -/
def body : String := "Hello, ActiveMQ!"

/-- Function `main` of src/activemq/producer.go. -/
def main (w : World) : Run :=
  match w.dialErr with
  | some e =>
    ⟨[Effect.call Api.netDial ["tcp", "localhost:61613"] (some e),
      Effect.fatal ("failed to connect to ActiveMQ: " ++ e)], Outcome.fatal⟩
  | none =>
    Run.after [Effect.call Api.netDial ["tcp", "localhost:61613"] none] <|
    match w.connectErr with
    | some e =>
      ⟨[Effect.call Api.stompConnect [] (some e),
        Effect.fatal ("failed to connect to STOMP server: " ++ e)], Outcome.fatal⟩
    | none =>
      Run.after [Effect.call Api.stompConnect [] none] <|
      Run.defer (Effect.call Api.stompDisconnect [] none) <|
      match w.sendErr with
      | some e =>
        ⟨[Effect.call Api.stompSend [destination, "text/plain", body] (some e),
          Effect.fatal ("failed to send message: " ++ e)], Outcome.fatal⟩
      | none =>
        ⟨[Effect.call Api.stompSend [destination, "text/plain", body] none,
          Effect.log ("Message sent to " ++ destination ++ ": " ++ body)],
         Outcome.returned⟩

end ActivemqProducer

/-! ## src/activemq/consumer.go -/

namespace ActivemqConsumer

/-- The `Body` field of a `stomp.Message`, the only one the program reads. -/
structure Message where
  Body : String
  deriving DecidableEq, Repr

/-- Result of one receive `msg, ok := <-sub.C`. -/
inductive Delivery
  /-- a value arrived (`ok` is true); `none` is the nil pointer -/
  | value (msg : Option Message)
  /-- the channel is closed (`ok` is false) -/
  | closed
  deriving DecidableEq, Repr

/-- Answers of the outside world: the results of the setup calls and of the
successive receives on `sub.C`. -/
structure World where
  dialErr : Option String
  connectErr : Option String
  subscribeErr : Option String
  inbound : List Delivery

/-- The `for` loop of `main` (lines 30 to 41), run against the results of its
successive receives. -/
def loop : List Delivery → Run
  | [] => ⟨[], Outcome.running⟩
  | Delivery.closed :: _ =>
    ⟨[Effect.call Api.stompChanRecv [] none,
      Effect.log "Subscription channel closed"], Outcome.returned⟩
  | Delivery.value none :: rest =>
    Run.after [Effect.call Api.stompChanRecv [] none,
      Effect.log "Received nil message"] (loop rest)
  | Delivery.value (some msg) :: rest =>
    Run.after [Effect.call Api.stompChanRecv [] none,
      Effect.log ("Received message: " ++ msg.Body)] (loop rest)

/-- Function `main` of src/activemq/consumer.go. -/
def main (w : World) : Run :=
  match w.dialErr with
  | some e =>
    ⟨[Effect.call Api.netDial ["tcp", "localhost:61613"] (some e),
      Effect.fatal ("failed to connect to ActiveMQ: " ++ e)], Outcome.fatal⟩
  | none =>
    Run.after [Effect.call Api.netDial ["tcp", "localhost:61613"] none] <|
    match w.connectErr with
    | some e =>
      ⟨[Effect.call Api.stompConnect [] (some e),
        Effect.fatal ("failed to connect to STOMP server: " ++ e)], Outcome.fatal⟩
    | none =>
      Run.after [Effect.call Api.stompConnect [] none] <|
      Run.defer (Effect.call Api.stompDisconnect [] none) <|
      match w.subscribeErr with
      | some e =>
        ⟨[Effect.call Api.stompSubscribe ["/queue/test", "stomp.AckAuto"] (some e),
          Effect.fatal ("failed to subscribe to queue: " ++ e)], Outcome.fatal⟩
      | none =>
        Run.after [Effect.call Api.stompSubscribe ["/queue/test", "stomp.AckAuto"] none] <|
        Run.defer (Effect.call Api.stompUnsubscribe [] none) <|
        loop w.inbound

/-- Effects of one iteration of the loop that received the value `v`. -/
def iteration : Option Message → List Effect
  | none => [Effect.call Api.stompChanRecv [] none, Effect.log "Received nil message"]
  | some msg =>
    [Effect.call Api.stompChanRecv [] none, Effect.log ("Received message: " ++ msg.Body)]

end ActivemqConsumer

/-! ## src/coins.go -/

namespace Coins

/-- An event read from `producer.Events()`.  A delivery report is the produced
`*kafka.Message` handed back, so its `Topic` pointer is the `&topic` of line
40 and is not nil; `Offset` is kept as its rendering by `%v`. -/
inductive Event
  /-- a `*kafka.Message` with the fields of its `TopicPartition` -/
  | message (Error : Option String) (Topic : String) (Partition : Int) (Offset : String)
  /-- an event of any other type -/
  | other
  deriving DecidableEq, Repr

/-- Answers of the outside world: the results of `NewProducer` and `Produce`,
the number `Flush` returns (events still outstanding after the timeout), and
the events delivered on `producer.Events()`. -/
structure World where
  newProducerErr : Option String
  produceErr : Option String
  flushResult : Nat
  events : List Event

/-- Text printed by the body of the `switch` (lines 25 to 33) for one event. -/
def report : Event → List Effect
  | Event.message (some err) _ _ _ =>
    [Effect.print ("Failed to deliver message: " ++ err ++ "\n")]
  | Event.message none topic partition offset =>
    [Effect.print ("Successfully produced record to topic " ++ topic ++
      " partition [" ++ toString partition ++ "] @ offset " ++ offset ++ "\n")]
  | Event.other => []

/-- The goroutine of lines 23 to 35: its effects for the events it reads.  It
runs beside `main`; how its output interleaves with that of `main` is up to
the scheduler, so it is kept as a trace of its own. -/
def reporter (w : World) : List Effect :=
  match w.newProducerErr with
  | some _ => []
  | none => w.events.flatMap report

/-- Function `main` of src/coins.go: the effects of the main goroutine. -/
def main (w : World) : Run :=
  Run.exit <|
  match w.newProducerErr with
  | some e =>
    ⟨[Effect.call Api.kafkaNewProducer ["bootstrap.servers", "localhost:9094"] (some e)],
     Outcome.panicked e⟩
  | none =>
    Run.after [Effect.call Api.kafkaNewProducer ["bootstrap.servers", "localhost:9094"] none] <|
    Run.defer (Effect.call Api.kafkaClose [] none) <|
    match w.produceErr with
    | some e =>
      ⟨[Effect.call Api.kafkaProduce ["reevu.test", "Hello, Kafka!"] (some e)],
       Outcome.panicked e⟩
    | none =>
      ⟨[Effect.call Api.kafkaProduce ["reevu.test", "Hello, Kafka!"] none,
        Effect.call Api.kafkaFlush ["15000"] none,
        Effect.print "Message sent successfully\n"], Outcome.returned⟩

end Coins

/-! ## src/upstash.go -/

namespace Upstash

/-- Answers of the outside world: the environment of the process (`os.Getenv`
gives the empty string for a variable that is not set), the function
`kafka.TCP` of the client library, which builds the address of the broker
from a text (`TCP s` is the text of the address built from `s`), and the
results of `scram.Mechanism` and `WriteMessages`. -/
structure World where
  env : String → String
  TCP : String → String
  mechanismErr : Option String
  writeErr : Option String

/-- Function `Producer` of src/upstash.go. -/
def Producer (topic : String) (w : World) : Run :=
  let url := w.env "KAFKA_URL"
  let username := w.env "KAFKA_USERNAME"
  let password := w.env "KAFKA_PASSWORD"
  Run.after [Effect.call Api.osGetenv ["KAFKA_URL"] none,
    Effect.call Api.osGetenv ["KAFKA_USERNAME"] none,
    Effect.call Api.osGetenv ["KAFKA_PASSWORD"] none] <|
  match w.mechanismErr with
  | some e =>
    ⟨[Effect.call Api.scramMechanism ["scram.SHA256", username, password] (some e),
      Effect.fatal ("could not create mechanism: " ++ e)], Outcome.fatal⟩
  | none =>
    let mechanism : Mechanism := ⟨"scram.SHA256", username, password⟩
    let wr : Writer := ⟨w.TCP url, topic, mechanism, true⟩
    Run.after [Effect.call Api.scramMechanism ["scram.SHA256", username, password] none] <|
    match w.writeErr with
    | some e =>
      ⟨[Effect.writeMessages wr [⟨"second", "test"⟩] (some e),
        Effect.fatal ("failed to write messages: " ++ e)], Outcome.fatal⟩
    | none =>
      ⟨[Effect.writeMessages wr [⟨"second", "test"⟩] none,
        Effect.call Api.kafkaWriterClose [] none], Outcome.returned⟩

/-- Function `main` of src/upstash.go. -/
def main (w : World) : Run :=
  Producer "coins" w

end Upstash

/-! ## src/nsq/producer.go -/

namespace NsqProducer

/-- Answers of the outside world to the calls of the program. -/
structure World where
  newProducerErr : Option String
  publishErr : Option String

/-- Local `messageBody` of `main`. -/
def messageBody : String := "Hello NSQ!"

/-- Function `main` of src/nsq/producer.go.  `log.Fatal` formats its operands
as `fmt.Sprint` does: no blank is put after an operand that is a string. -/
def main (w : World) : Run :=
  match w.newProducerErr with
  | some e =>
    ⟨[Effect.call Api.nsqNewProducer ["localhost:4150"] (some e), Effect.fatal e],
     Outcome.fatal⟩
  | none =>
    Run.after [Effect.call Api.nsqNewProducer ["localhost:4150"] none] <|
    match w.publishErr with
    | some e =>
      ⟨[Effect.call Api.nsqPublish ["test", messageBody] (some e),
        Effect.fatal ("Publish error:" ++ e)], Outcome.fatal⟩
    | none =>
      ⟨[Effect.call Api.nsqPublish ["test", messageBody] none,
        Effect.log ("Message published: " ++ messageBody),
        Effect.call Api.nsqStop [] none], Outcome.returned⟩

end NsqProducer

/-! ## src/nsq/consumer.go -/

namespace NsqConsumer

/-- The `Body` field of an `nsq.Message`, the only one the handler reads. -/
structure Message where
  Body : String
  deriving DecidableEq, Repr

/-- Answers of the outside world: the results of the setup calls and the
messages the library hands to the handler, in order (`none` is a nil
pointer). -/
structure World where
  newConsumerErr : Option String
  connectErr : Option String
  delivered : List (Option Message)

/-- The handler function of lines 18 to 21, called on one message. -/
def handler : Option Message → Run
  | none => ⟨[], Outcome.panicked nilDereference⟩
  | some message =>
    ⟨[Effect.log ("Received message: " ++ message.Body)], Outcome.returned⟩

/-- The program at `select {}` (line 29): `main` is blocked and the library
calls the handler once for each message. -/
def serve : List (Option Message) → Run
  | [] => ⟨[], Outcome.running⟩
  | m :: rest =>
    match (handler m).outcome with
    | Outcome.returned =>
      Run.after (Effect.call Api.nsqHandleMessage [] none :: (handler m).trace) (serve rest)
    | o => ⟨Effect.call Api.nsqHandleMessage [] none :: (handler m).trace, o⟩

/-- Function `main` of src/nsq/consumer.go. -/
def main (w : World) : Run :=
  Run.exit <|
  match w.newConsumerErr with
  | some e =>
    ⟨[Effect.call Api.nsqNewConsumer ["test", "test_channel"] (some e), Effect.fatal e],
     Outcome.fatal⟩
  | none =>
    Run.after [Effect.call Api.nsqNewConsumer ["test", "test_channel"] none,
      Effect.call Api.nsqAddHandler [] none] <|
    match w.connectErr with
    | some e =>
      ⟨[Effect.call Api.nsqConnectToNSQD ["localhost:4150"] (some e),
        Effect.fatal ("Connect error:" ++ e)], Outcome.fatal⟩
    | none =>
      Run.after [Effect.call Api.nsqConnectToNSQD ["localhost:4150"] none] <|
      serve w.delivered

end NsqConsumer

/-! ## src/redis/pub.go -/

namespace RedisPub

/-- Answers of the outside world: the results of the successive `Publish`
calls, for as long as the run is observed. -/
structure World where
  published : List (Option String)

/-- The `for` loop of `main` (lines 17 to 23), run against the results of its
successive `Publish` calls. -/
def loop : List (Option String) → Run
  | [] => ⟨[], Outcome.running⟩
  | some e :: _ =>
    ⟨[Effect.call Api.redisPublish ["mychannel", "Hello, Redis!"] (some e)],
     Outcome.panicked e⟩
  | none :: rest =>
    Run.after [Effect.call Api.redisPublish ["mychannel", "Hello, Redis!"] none,
      Effect.call Api.timeSleep ["1s"] none] (loop rest)

/-- Function `main` of src/redis/pub.go. -/
def main (w : World) : Run :=
  Run.exit <|
  Run.after [Effect.call Api.redisNewClient ["localhost:6379"] none] <|
  loop w.published

end RedisPub

/-! ## src/redis/sub.go -/

namespace RedisSub

/-- The fields of a `redis.Message` the program reads. -/
structure Message where
  Channel : String
  Payload : String
  deriving DecidableEq, Repr

/-- Result of one receive of `for msg := range ch`. -/
inductive Delivery
  /-- a value arrived; `none` is the nil pointer -/
  | value (msg : Option Message)
  /-- the channel is closed -/
  | closed
  deriving DecidableEq, Repr

/-- Answers of the outside world: the result of `pubsub.Receive` and of the
successive receives on the channel. -/
structure World where
  receiveErr : Option String
  inbound : List Delivery

/-- The `for ... range ch` loop of `main` (lines 29 to 31), run against the
results of its successive receives. -/
def loop : List Delivery → Run
  | [] => ⟨[], Outcome.running⟩
  | Delivery.closed :: _ =>
    ⟨[Effect.call Api.redisChanRecv [] none], Outcome.returned⟩
  | Delivery.value none :: _ =>
    ⟨[Effect.call Api.redisChanRecv [] none], Outcome.panicked nilDereference⟩
  | Delivery.value (some msg) :: rest =>
    Run.after [Effect.call Api.redisChanRecv [] none,
      Effect.print (msg.Channel ++ " " ++ msg.Payload ++ "\n")] (loop rest)

/-- Function `main` of src/redis/sub.go. -/
def main (w : World) : Run :=
  Run.exit <|
  Run.after [Effect.call Api.redisNewClient ["localhost:6379"] none,
    Effect.call Api.redisSubscribe ["mychannel"] none] <|
  Run.defer (Effect.call Api.redisPubSubClose [] none) <|
  match w.receiveErr with
  | some e => ⟨[Effect.call Api.redisReceive [] (some e)], Outcome.panicked e⟩
  | none =>
    Run.after [Effect.call Api.redisReceive [] none,
      Effect.call Api.redisChannel [] none] <|
    loop w.inbound

end RedisSub

/-! ## src/pulsar/producer.go -/

namespace PulsarProducer

/-- Answers of the outside world: the results of the setup calls, and the
result of `producer.Send` for the message of each index. -/
structure World where
  newClientErr : Option String
  createProducerErr : Option String
  sendErr : Nat → Option String

/-- The topic of the `ProducerOptions` literal. -/
def topic : String := "my-topic"

/-- Value of `fmt.Sprintf("hello-%d", i)`. -/
def payload (i : Nat) : String := "hello-" ++ toString i

/-- The loop `for i := 0; i < 10; i++` of `main` (lines 29 to 36), entered at
index `i`.  The first argument bounds the number of iterations the model
follows; `main` gives it 11, more than the loop can take. -/
def sendLoop (sendErr : Nat → Option String) : Nat → Nat → Run
  | 0, _ => ⟨[], Outcome.running⟩
  | fuel + 1, i =>
    if i < 10 then
      match sendErr i with
      | some e =>
        ⟨[Effect.call Api.pulsarSend [payload i] (some e), Effect.fatal e],
         Outcome.fatal⟩
      | none =>
        Run.after [Effect.call Api.pulsarSend [payload i] none,
          Effect.print ("Produced message: hello-" ++ toString i ++ "\n")]
          (sendLoop sendErr fuel (i + 1))
    else ⟨[], Outcome.returned⟩

/-- Function `main` of src/pulsar/producer.go. -/
def main (w : World) : Run :=
  match w.newClientErr with
  | some e =>
    ⟨[Effect.call Api.pulsarNewClient ["pulsar://localhost:6650"] (some e), Effect.fatal e],
     Outcome.fatal⟩
  | none =>
    Run.after [Effect.call Api.pulsarNewClient ["pulsar://localhost:6650"] none] <|
    Run.defer (Effect.call Api.pulsarClientClose [] none) <|
    match w.createProducerErr with
    | some e =>
      ⟨[Effect.call Api.pulsarCreateProducer [topic] (some e), Effect.fatal e],
       Outcome.fatal⟩
    | none =>
      Run.after [Effect.call Api.pulsarCreateProducer [topic] none] <|
      Run.defer (Effect.call Api.pulsarProducerClose [] none) <|
      sendLoop w.sendErr 11 0

/-- Effects of one iteration of the loop whose `Send` succeeds. -/
def iteration (i : Nat) : List Effect :=
  [Effect.call Api.pulsarSend [payload i] none,
   Effect.print ("Produced message: hello-" ++ toString i ++ "\n")]

end PulsarProducer

/-! ## src/pulsar/consumer.go -/

namespace PulsarConsumer

/-- The payload of a `pulsar.Message`, the only part the program reads. -/
structure Message where
  Payload : String
  deriving DecidableEq, Repr

/-- Answers of the outside world: the results of the setup calls and of the
successive `consumer.Receive` calls. -/
structure World where
  newClientErr : Option String
  subscribeErr : Option String
  received : List (Except String Message)

/-- The `for` loop of `main` (lines 29 to 36), run against the results of its
successive `Receive` calls. -/
def loop : List (Except String Message) → Run
  | [] => ⟨[], Outcome.running⟩
  | Except.error e :: _ =>
    ⟨[Effect.call Api.pulsarReceive [] (some e), Effect.fatal e], Outcome.fatal⟩
  | Except.ok msg :: rest =>
    Run.after [Effect.call Api.pulsarReceive [] none,
      Effect.call Api.pulsarAck [msg.Payload] none,
      Effect.log ("Received message: " ++ msg.Payload)] (loop rest)

/-- Function `main` of src/pulsar/consumer.go. -/
def main (w : World) : Run :=
  match w.newClientErr with
  | some e =>
    ⟨[Effect.call Api.pulsarNewClient ["pulsar://localhost:6650"] (some e), Effect.fatal e],
     Outcome.fatal⟩
  | none =>
    Run.after [Effect.call Api.pulsarNewClient ["pulsar://localhost:6650"] none] <|
    Run.defer (Effect.call Api.pulsarClientClose [] none) <|
    match w.subscribeErr with
    | some e =>
      ⟨[Effect.call Api.pulsarSubscribe ["my-topic", "my-subscription", "pulsar.Exclusive"]
          (some e), Effect.fatal e], Outcome.fatal⟩
    | none =>
      Run.after [Effect.call Api.pulsarSubscribe
        ["my-topic", "my-subscription", "pulsar.Exclusive"] none] <|
      Run.defer (Effect.call Api.pulsarConsumerClose [] none) <|
      loop w.received

end PulsarConsumer

/-! ## Observations on traces -/

/-- The calls of the entry point `a` in a trace: arguments and returned error
of each, in order. -/
def callsOf (a : Api) : List Effect → List (List String × Option String)
  | [] => []
  | Effect.call b args err :: rest =>
    if b = a then (args, err) :: callsOf a rest else callsOf a rest
  | _ :: rest => callsOf a rest

/-- The texts written to standard output in a trace, in order. -/
def printsOf : List Effect → List String
  | [] => []
  | Effect.print text :: rest => text :: printsOf rest
  | _ :: rest => printsOf rest

/-- The lines written by `log.Println` and `log.Printf` in a trace, in
order. -/
def logsOf : List Effect → List String
  | [] => []
  | Effect.log line :: rest => line :: logsOf rest
  | _ :: rest => logsOf rest

/-- The `WriteMessages` calls in a trace: the writer and the messages of each,
in order. -/
def writesOf : List Effect → List (Writer × List Message)
  | [] => []
  | Effect.writeMessages w msgs _ :: rest => (w, msgs) :: writesOf rest
  | _ :: rest => writesOf rest

/-! ## Classes of effects -/

/-- Entry points that acknowledge a received message. -/
def Api.isAck : Api → Bool
  | Api.stompAck => true
  | Api.nsqFinish => true
  | Api.pulsarAck => true
  | _ => false

/-- The effect is an acknowledge call made by the program. -/
def Effect.isAck : Effect → Bool
  | Effect.call api _ _ => api.isAck
  | _ => false

/-- Entry points that release a connection or a client. -/
def Api.isRelease : Api → Bool
  | Api.stompDisconnect => true
  | Api.kafkaClose => true
  | Api.kafkaWriterClose => true
  | Api.nsqStop => true
  | Api.redisPubSubClose => true
  | Api.pulsarClientClose => true
  | Api.pulsarProducerClose => true
  | Api.pulsarConsumerClose => true
  | _ => false

/-- The effect is a call that releases a connection or a client. -/
def Effect.isRelease : Effect → Bool
  | Effect.call api _ _ => api.isRelease
  | _ => false

/-- Setup calls: dial, connect, creation of a mechanism, client, producer or
consumer, subscribe, confirmation of the subscription. -/
def Api.isSetup : Api → Bool
  | Api.netDial => true
  | Api.stompConnect => true
  | Api.stompSubscribe => true
  | Api.kafkaNewProducer => true
  | Api.scramMechanism => true
  | Api.nsqNewConsumer => true
  | Api.nsqConnectToNSQD => true
  | Api.nsqNewProducer => true
  | Api.redisNewClient => true
  | Api.redisSubscribe => true
  | Api.redisReceive => true
  | Api.pulsarNewClient => true
  | Api.pulsarCreateProducer => true
  | Api.pulsarSubscribe => true
  | _ => false

/-- Broker operations: send, publish, subscribe, receive. -/
def Api.isBrokerOp : Api → Bool
  | Api.stompSubscribe => true
  | Api.stompSend => true
  | Api.stompChanRecv => true
  | Api.kafkaProduce => true
  | Api.nsqHandleMessage => true
  | Api.nsqPublish => true
  | Api.redisSubscribe => true
  | Api.redisReceive => true
  | Api.redisChanRecv => true
  | Api.redisPublish => true
  | Api.pulsarSend => true
  | Api.pulsarSubscribe => true
  | Api.pulsarReceive => true
  | _ => false

/-- The effect is a setup call that returned an error. -/
def Effect.failedSetup : Effect → Bool
  | Effect.call api _ (some _) => api.isSetup
  | _ => false

/-- The effect is a send, publish, subscribe or receive. -/
def Effect.brokerOp : Effect → Bool
  | Effect.call api _ _ => api.isBrokerOp
  | Effect.writeMessages _ _ _ => true
  | _ => false

/-- Setup errors are fatal in the run `r`: no broker operation comes after a
setup call that returned an error, and when there is such a call the run ends
by `log.Fatal` or by a panic, the last thing written being the fatal line or
the report of the panic. -/
def SetupErrorIsFatal (r : Run) : Prop :=
  r.trace.Pairwise (fun x y => x.failedSetup = true → y.brokerOp = false) ∧
  ((∃ x ∈ r.trace, x.failedSetup = true) →
    (r.outcome = Outcome.fatal ∨ ∃ v, r.outcome = Outcome.panicked v) ∧
    ∃ line, r.trace.getLast? = some (Effect.fatal line) ∨
      r.trace.getLast? = some (Effect.panic line))

/-! ## Lemmas on the observations -/

theorem outcome_defer (d : Effect) (r : Run) : (Run.defer d r).outcome = r.outcome := by
  unfold Run.defer
  split <;> rfl

theorem outcome_exit (r : Run) : (Run.exit r).outcome = r.outcome := by
  unfold Run.exit
  split <;> rfl

theorem getLast?_append_two {α : Type} (l : List α) (a b : α) :
    (l ++ [a, b]).getLast? = some b := by
  have h : l ++ [a, b] = (l ++ [a]) ++ [b] := by simp
  rw [h, List.getLast?_concat]

theorem callsOf_append (a : Api) (s t : List Effect) :
    callsOf a (s ++ t) = callsOf a s ++ callsOf a t := by
  induction s with
  | nil => rfl
  | cons x s ih =>
    cases x <;> simp [callsOf, ih]
    split <;> simp

theorem printsOf_append (s t : List Effect) :
    printsOf (s ++ t) = printsOf s ++ printsOf t := by
  induction s with
  | nil => rfl
  | cons x s ih => cases x <;> simp [printsOf, ih]

theorem logsOf_append (s t : List Effect) :
    logsOf (s ++ t) = logsOf s ++ logsOf t := by
  induction s with
  | nil => rfl
  | cons x s ih => cases x <;> simp [logsOf, ih]

/-! ## The Pulsar producer -/

namespace PulsarProducer

theorem sendLoop_all_ok (sendErr : Nat → Option String) :
    ∀ (fuel i : Nat), i ≤ 10 → 10 - i < fuel →
      (∀ j, i ≤ j → j < 10 → sendErr j = none) →
      sendLoop sendErr fuel i =
        ⟨(List.range' i (10 - i)).flatMap iteration, Outcome.returned⟩ := by
  intro fuel
  induction fuel with
  | zero => intro i _ h; omega
  | succ fuel ih =>
    intro i hi hfuel hok
    by_cases h10 : i < 10
    · have hrec := ih (i + 1) (by omega) (by omega) (fun j hj hj10 => hok j (by omega) hj10)
      have hsplit : 10 - i = (10 - (i + 1)) + 1 := by omega
      rw [sendLoop, if_pos h10, hok i (le_refl i) h10, hrec, hsplit, List.range'_succ]
      simp [Run.after, iteration]
    · have h0 : 10 - i = 0 := by omega
      rw [sendLoop, if_neg h10, h0]
      rfl

theorem sendLoop_fails_at (sendErr : Nat → Option String) (k : Nat) (e : String)
    (hk : k < 10) (hfail : sendErr k = some e) :
    ∀ (fuel i : Nat), i ≤ k → k - i < fuel →
      (∀ j, i ≤ j → j < k → sendErr j = none) →
      sendLoop sendErr fuel i =
        ⟨(List.range' i (k - i)).flatMap iteration ++
          [Effect.call Api.pulsarSend [payload k] (some e), Effect.fatal e],
         Outcome.fatal⟩ := by
  intro fuel
  induction fuel with
  | zero => intro i _ h; omega
  | succ fuel ih =>
    intro i hi hfuel hok
    have h10 : i < 10 := by omega
    by_cases hik : i = k
    · subst hik
      rw [sendLoop, if_pos h10, hfail]
      simp
    · have hlt : i < k := by omega
      have hrec := ih (i + 1) (by omega) (by omega) (fun j hj hjk => hok j (by omega) hjk)
      have hsplit : k - i = (k - (i + 1)) + 1 := by omega
      rw [sendLoop, if_pos h10, hok i (le_refl i) hlt, hrec, hsplit, List.range'_succ]
      simp [Run.after, iteration]

/-- The bound on the iterations is never reached: from an index `i` with more
than `10 - i` iterations allowed the loop ends, by falling out at index 10
or in `log.Fatal`. -/
theorem sendLoop_ends (sendErr : Nat → Option String) :
    ∀ (fuel i : Nat), 10 - i < fuel →
      (sendLoop sendErr fuel i).outcome = Outcome.returned ∨
        (sendLoop sendErr fuel i).outcome = Outcome.fatal := by
  intro fuel
  induction fuel with
  | zero => intro i h; omega
  | succ fuel ih =>
    intro i hfuel
    rw [sendLoop]
    split
    · split
      · exact Or.inr rfl
      · exact ih (i + 1) (by omega)
    · exact Or.inl rfl

/-- Function `main` of the Pulsar producer ends on every run. -/
theorem main_ends (w : World) :
    (main w).outcome = Outcome.returned ∨ (main w).outcome = Outcome.fatal := by
  obtain ⟨newClientErr, createProducerErr, sendErr⟩ := w
  cases newClientErr with
  | some e => exact Or.inr rfl
  | none =>
    cases createProducerErr with
    | some e => exact Or.inr rfl
    | none =>
      have h := sendLoop_ends sendErr 11 0 (by omega)
      simpa [main, Run.after, outcome_defer] using h

theorem callsOf_send_iterations (l : List Nat) :
    callsOf Api.pulsarSend (l.flatMap iteration) = l.map (fun i => ([payload i], none)) := by
  induction l with
  | nil => rfl
  | cons i l ih =>
    rw [List.flatMap_cons, callsOf_append, ih]
    simp [iteration, callsOf]

theorem printsOf_iterations (l : List Nat) :
    printsOf (l.flatMap iteration) =
      l.map (fun i => "Produced message: hello-" ++ toString i ++ "\n") := by
  induction l with
  | nil => rfl
  | cons i l ih =>
    rw [List.flatMap_cons, printsOf_append, ih]
    simp [iteration, printsOf]

end PulsarProducer

/-! ## Claims on the Pulsar producer -/

/-- C1: in the Pulsar producer a failed send is fatal and is not retried.
When the client and the producer are created, `Send` succeeds for the
messages 0 to k-1 and fails for message k (k below 10), the `Send` calls of
the run are those of the indices 0 to k in order, one each (k+1 calls), the
lines printed are the k lines of the indices below k, and the run ends in
`log.Fatal` with the error of message k. -/
theorem pulsar_failed_send_is_fatal (w : PulsarProducer.World) (k : Nat) (e : String)
    (hclient : w.newClientErr = none) (hproducer : w.createProducerErr = none)
    (hk : k < 10) (hok : ∀ i, i < k → w.sendErr i = none)
    (hfail : w.sendErr k = some e) :
    callsOf Api.pulsarSend (PulsarProducer.main w).trace =
        (List.range k).map (fun i => (["hello-" ++ toString i], none)) ++
          [(["hello-" ++ toString k], some e)] ∧
      (callsOf Api.pulsarSend (PulsarProducer.main w).trace).length = k + 1 ∧
      printsOf (PulsarProducer.main w).trace =
        (List.range k).map (fun i => "Produced message: hello-" ++ toString i ++ "\n") ∧
      (PulsarProducer.main w).trace.getLast? = some (Effect.fatal e) ∧
      (PulsarProducer.main w).outcome = Outcome.fatal := by
  have hloop := PulsarProducer.sendLoop_fails_at w.sendErr k e hk hfail 11 0
    (Nat.zero_le k) (by omega) (fun j _ hj => hok j hj)
  have htrace : (PulsarProducer.main w).trace =
      [Effect.call Api.pulsarNewClient ["pulsar://localhost:6650"] none,
       Effect.call Api.pulsarCreateProducer [PulsarProducer.topic] none] ++
      ((List.range k).flatMap PulsarProducer.iteration ++
        [Effect.call Api.pulsarSend [PulsarProducer.payload k] (some e), Effect.fatal e]) := by
    simp [PulsarProducer.main, hclient, hproducer, hloop, Run.after, Run.defer,
      List.range_eq_range']
  have hout : (PulsarProducer.main w).outcome = Outcome.fatal := by
    simp [PulsarProducer.main, hclient, hproducer, hloop, Run.after, Run.defer]
  have hcalls : callsOf Api.pulsarSend (PulsarProducer.main w).trace =
      (List.range k).map (fun i => (["hello-" ++ toString i], none)) ++
        [(["hello-" ++ toString k], some e)] := by
    rw [htrace, callsOf_append, callsOf_append, PulsarProducer.callsOf_send_iterations]
    simp [callsOf, PulsarProducer.payload]
  refine ⟨hcalls, ?_, ?_, ?_, hout⟩
  · rw [hcalls]; simp
  · rw [htrace, printsOf_append, printsOf_append, PulsarProducer.printsOf_iterations]
    simp [printsOf]
  · rw [htrace, ← List.append_assoc]
    exact getLast?_append_two _ _ _

/-- C1, at a run whose fourth send fails. -/
theorem pulsar_failed_send_is_fatal_witness :
    callsOf Api.pulsarSend (PulsarProducer.main
        ⟨none, none, fun i => if i = 3 then some "timeout" else none⟩).trace =
        (List.range 3).map (fun i => (["hello-" ++ toString i], none)) ++
          [(["hello-" ++ toString 3], some "timeout")] ∧
      (callsOf Api.pulsarSend (PulsarProducer.main
        ⟨none, none, fun i => if i = 3 then some "timeout" else none⟩).trace).length = 3 + 1 ∧
      printsOf (PulsarProducer.main
        ⟨none, none, fun i => if i = 3 then some "timeout" else none⟩).trace =
        (List.range 3).map (fun i => "Produced message: hello-" ++ toString i ++ "\n") ∧
      (PulsarProducer.main
        ⟨none, none, fun i => if i = 3 then some "timeout" else none⟩).trace.getLast? =
        some (Effect.fatal "timeout") ∧
      (PulsarProducer.main
        ⟨none, none, fun i => if i = 3 then some "timeout" else none⟩).outcome =
        Outcome.fatal :=
  pulsar_failed_send_is_fatal ⟨none, none, fun i => if i = 3 then some "timeout" else none⟩
    3 "timeout" rfl rfl (by decide) (fun i hi => if_neg (by omega)) (by simp)

/-- C7: on a run of the Pulsar producer in which the client and the producer
are created and every `Send` succeeds, the producer is created on topic
"my-topic" and the run is, in this order: for i = 0, 1, ..., 9 one `Send` of
the payload "hello-" followed by the decimal digits of i, then the line
"Produced message: hello-i"; after the tenth line the two deferred `Close`
calls, and `main` returns. -/
theorem pulsar_sends_ten_messages_in_order (w : PulsarProducer.World)
    (hclient : w.newClientErr = none) (hproducer : w.createProducerErr = none)
    (hok : ∀ i, i < 10 → w.sendErr i = none) :
    (PulsarProducer.main w).trace =
        [Effect.call Api.pulsarNewClient ["pulsar://localhost:6650"] none,
         Effect.call Api.pulsarCreateProducer ["my-topic"] none] ++
        (List.range 10).flatMap (fun i =>
          [Effect.call Api.pulsarSend ["hello-" ++ toString i] none,
           Effect.print ("Produced message: hello-" ++ toString i ++ "\n")]) ++
        [Effect.call Api.pulsarProducerClose [] none,
         Effect.call Api.pulsarClientClose [] none] ∧
      callsOf Api.pulsarSend (PulsarProducer.main w).trace =
        (List.range 10).map (fun i => (["hello-" ++ toString i], none)) ∧
      (PulsarProducer.main w).outcome = Outcome.returned := by
  have hloop := PulsarProducer.sendLoop_all_ok w.sendErr 11 0 (by omega) (by omega)
    (fun j _ hj => hok j hj)
  have htrace : (PulsarProducer.main w).trace =
      [Effect.call Api.pulsarNewClient ["pulsar://localhost:6650"] none,
       Effect.call Api.pulsarCreateProducer ["my-topic"] none] ++
      (List.range 10).flatMap PulsarProducer.iteration ++
      [Effect.call Api.pulsarProducerClose [] none,
       Effect.call Api.pulsarClientClose [] none] := by
    simp [PulsarProducer.main, hclient, hproducer, hloop, Run.after, Run.defer,
      List.range_eq_range', PulsarProducer.topic]
  refine ⟨htrace, ?_, ?_⟩
  · rw [htrace, callsOf_append, callsOf_append, PulsarProducer.callsOf_send_iterations]
    simp [callsOf, PulsarProducer.payload]
  · simp [PulsarProducer.main, hclient, hproducer, hloop, Run.after, Run.defer]

/-- C7, at the run in which every call succeeds. -/
theorem pulsar_sends_ten_messages_in_order_witness :
    callsOf Api.pulsarSend (PulsarProducer.main ⟨none, none, fun _ => none⟩).trace =
        (List.range 10).map (fun i => (["hello-" ++ toString i], none)) ∧
      (PulsarProducer.main ⟨none, none, fun _ => none⟩).outcome = Outcome.returned :=
  (pulsar_sends_ten_messages_in_order ⟨none, none, fun _ => none⟩ rfl rfl
    (fun _ _ => rfl)).2

/-! ## Claims on the ActiveMQ programs -/

namespace ActivemqConsumer

theorem loop_values_then_closed (vals : List (Option Message)) (more : List Delivery) :
    loop (vals.map Delivery.value ++ Delivery.closed :: more) =
      ⟨vals.flatMap iteration ++
        [Effect.call Api.stompChanRecv [] none, Effect.log "Subscription channel closed"],
       Outcome.returned⟩ := by
  induction vals with
  | nil => simp [loop]
  | cons v vals ih =>
    cases v <;>
      (rw [List.map_cons, List.cons_append, loop, ih]
       simp [Run.after, iteration])

theorem logsOf_iterations (vals : List (Option Message)) :
    logsOf (vals.flatMap iteration) =
      vals.map (fun v => match v with
        | none => "Received nil message"
        | some msg => "Received message: " ++ msg.Body) := by
  induction vals with
  | nil => rfl
  | cons v vals ih =>
    rw [List.flatMap_cons, logsOf_append, ih]
    cases v <;> simp [iteration, logsOf]

theorem callsOf_recv_iterations (vals : List (Option Message)) :
    (callsOf Api.stompChanRecv (vals.flatMap iteration)).length = vals.length := by
  induction vals with
  | nil => rfl
  | cons v vals ih =>
    rw [List.flatMap_cons, callsOf_append, List.length_append, ih]
    cases v <;> simp [iteration, callsOf] <;> omega

end ActivemqConsumer

/-- C3: in the ActiveMQ consumer, after a successful setup, when the channel
delivers the values `vals` (nil or a message each) and is then closed, the
lines logged are, in delivery order, "Received nil message" for each nil and
"Received message: " followed by the body for each message, then once
"Subscription channel closed"; the loop makes one receive for each value and
one for the close, none after it, and `main` returns.  A nil value is thus
followed by the lines of the values after it. -/
theorem activemq_consumer_logs_every_delivery (w : ActivemqConsumer.World)
    (vals : List (Option ActivemqConsumer.Message)) (more : List ActivemqConsumer.Delivery)
    (hdial : w.dialErr = none) (hconnect : w.connectErr = none)
    (hsubscribe : w.subscribeErr = none)
    (hinbound : w.inbound =
      vals.map ActivemqConsumer.Delivery.value ++ ActivemqConsumer.Delivery.closed :: more) :
    logsOf (ActivemqConsumer.main w).trace =
        vals.map (fun v => match v with
          | none => "Received nil message"
          | some msg => "Received message: " ++ msg.Body) ++
        ["Subscription channel closed"] ∧
      (callsOf Api.stompChanRecv (ActivemqConsumer.main w).trace).length = vals.length + 1 ∧
      (ActivemqConsumer.main w).outcome = Outcome.returned := by
  have hloop := ActivemqConsumer.loop_values_then_closed vals more
  have htrace : (ActivemqConsumer.main w).trace =
      [Effect.call Api.netDial ["tcp", "localhost:61613"] none,
       Effect.call Api.stompConnect [] none,
       Effect.call Api.stompSubscribe ["/queue/test", "stomp.AckAuto"] none] ++
      (vals.flatMap ActivemqConsumer.iteration ++
        ([Effect.call Api.stompChanRecv [] none, Effect.log "Subscription channel closed",
          Effect.call Api.stompUnsubscribe [] none,
          Effect.call Api.stompDisconnect [] none])) := by
    simp [ActivemqConsumer.main, hdial, hconnect, hsubscribe, hinbound, hloop, Run.after,
      Run.defer]
  refine ⟨?_, ?_, ?_⟩
  · rw [htrace, logsOf_append, logsOf_append, ActivemqConsumer.logsOf_iterations]
    simp [logsOf]
  · rw [htrace, callsOf_append, callsOf_append, List.length_append, List.length_append,
      ActivemqConsumer.callsOf_recv_iterations]
    simp [callsOf]
  · simp [ActivemqConsumer.main, hdial, hconnect, hsubscribe, hinbound, hloop, Run.after,
      Run.defer]

/-- C3, at a message, a nil, a second message, and the close. -/
theorem activemq_consumer_logs_every_delivery_witness :
    logsOf (ActivemqConsumer.main ⟨none, none, none,
        [ActivemqConsumer.Delivery.value (some ⟨"a"⟩), ActivemqConsumer.Delivery.value none,
         ActivemqConsumer.Delivery.value (some ⟨"b"⟩), ActivemqConsumer.Delivery.closed]⟩).trace =
      ["Received message: a", "Received nil message", "Received message: b",
       "Subscription channel closed"] :=
  (activemq_consumer_logs_every_delivery
    ⟨none, none, none,
      [ActivemqConsumer.Delivery.value (some ⟨"a"⟩), ActivemqConsumer.Delivery.value none,
       ActivemqConsumer.Delivery.value (some ⟨"b"⟩), ActivemqConsumer.Delivery.closed]⟩
    [some ⟨"a"⟩, none, some ⟨"b"⟩] [] rfl rfl rfl rfl).1

/-- C10: in the ActiveMQ producer `Disconnect` is called at most once on every
run.  When the connection is set up and `Send` returns no error, the run is
the dial, the connect, the `Send`, the line "Message sent to /queue/test:
Hello, ActiveMQ!" and then `Disconnect`, once, and `main` returns.  When
`Send` returns an error the run ends in `log.Fatalf` and `Disconnect` is not
called. -/
theorem activemq_producer_disconnects_only_on_success (w : ActivemqProducer.World) :
    (callsOf Api.stompDisconnect (ActivemqProducer.main w).trace).length ≤ 1 ∧
      (w.dialErr = none → w.connectErr = none → w.sendErr = none →
        (ActivemqProducer.main w).trace =
          [Effect.call Api.netDial ["tcp", "localhost:61613"] none,
           Effect.call Api.stompConnect [] none,
           Effect.call Api.stompSend ["/queue/test", "text/plain", "Hello, ActiveMQ!"] none,
           Effect.log "Message sent to /queue/test: Hello, ActiveMQ!",
           Effect.call Api.stompDisconnect [] none] ∧
        (ActivemqProducer.main w).outcome = Outcome.returned) ∧
      (∀ e, w.dialErr = none → w.connectErr = none → w.sendErr = some e →
        callsOf Api.stompDisconnect (ActivemqProducer.main w).trace = [] ∧
        (ActivemqProducer.main w).trace.getLast? =
          some (Effect.fatal ("failed to send message: " ++ e)) ∧
        (ActivemqProducer.main w).outcome = Outcome.fatal) := by
  obtain ⟨dialErr, connectErr, sendErr⟩ := w
  refine ⟨?_, ?_, ?_⟩
  · cases dialErr <;> cases connectErr <;> cases sendErr <;>
      simp [ActivemqProducer.main, Run.after, Run.defer, callsOf]
  · intro hd hc hs
    simp only at hd hc hs
    subst hd hc hs
    constructor
    · simp [ActivemqProducer.main, Run.after, Run.defer, ActivemqProducer.destination,
        ActivemqProducer.body]
    · simp [ActivemqProducer.main, Run.after, Run.defer]
  · intro e hd hc hs
    simp only at hd hc hs
    subst hd hc hs
    simp [ActivemqProducer.main, Run.after, Run.defer, callsOf]

/-- C10, at a run whose `Send` fails and at the run in which every call
succeeds. -/
theorem activemq_producer_disconnects_only_on_success_witness :
    callsOf Api.stompDisconnect
        (ActivemqProducer.main ⟨none, none, some "connection reset"⟩).trace = [] ∧
      callsOf Api.stompDisconnect (ActivemqProducer.main ⟨none, none, none⟩).trace =
        [([], none)] :=
  ⟨((activemq_producer_disconnects_only_on_success
      ⟨none, none, some "connection reset"⟩).2.2 "connection reset" rfl rfl rfl).1,
   by rw [((activemq_producer_disconnects_only_on_success ⟨none, none, none⟩).2.1
      rfl rfl rfl).1]; simp [callsOf]⟩

/-! ## Claims on the Kafka producers -/

/-- C8, the claim as stated fails: the address of the writer is what
`kafka.TCP` builds from the value of KAFKA_URL, not that value.  With
KAFKA_URL set to "127.0.0.1", and `kafka.TCP` giving an address without port
the port 9092 as the library does, the writer of the `WriteMessages` call has
the address "127.0.0.1:9092". -/
theorem upstash_writer_address_is_built_by_tcp :
    writesOf (Upstash.Producer "coins"
      ⟨fun name => if name = "KAFKA_URL" then "127.0.0.1"
        else if name = "KAFKA_USERNAME" then "alice"
        else if name = "KAFKA_PASSWORD" then "secret" else "",
       fun address => address ++ ":9092", none, none⟩).trace =
      [(⟨"127.0.0.1:9092", "coins", ⟨"scram.SHA256", "alice", "secret"⟩, true⟩,
        [⟨"second", "test"⟩])] ∧
    ¬ ∀ (t : String) (w : Upstash.World), w.mechanismErr = none → w.writeErr = none →
      ∀ x ∈ writesOf (Upstash.Producer t w).trace, x.1.Addr = w.env "KAFKA_URL" := by
  refine ⟨by decide, ?_⟩
  intro h
  have h1 := h "coins"
    ⟨fun name => if name = "KAFKA_URL" then "127.0.0.1"
      else if name = "KAFKA_USERNAME" then "alice"
      else if name = "KAFKA_PASSWORD" then "secret" else "",
     fun address => address ++ ":9092", none, none⟩ rfl rfl
    (⟨"127.0.0.1:9092", "coins", ⟨"scram.SHA256", "alice", "secret"⟩, true⟩,
      [⟨"second", "test"⟩]) (by decide)
  exact absurd h1 (by decide)

/-- C8, amended: for every topic `t`, when `scram.Mechanism` and
`WriteMessages` return no error, `Producer(t)` reads the environment
variables KAFKA_URL, KAFKA_USERNAME and KAFKA_PASSWORD and no other, and makes
one `WriteMessages` call, with the one message of key "second" and value
"test", on a writer whose topic is `t`, whose address is the one `kafka.TCP`
builds from the value of KAFKA_URL and whose mechanism is SCRAM-SHA256 with
the values of KAFKA_USERNAME and KAFKA_PASSWORD; it then closes the writer
and returns.  The key and the value of the message are the same for every
topic. -/
theorem upstash_producer_writes_one_message (t : String) (w : Upstash.World)
    (hmechanism : w.mechanismErr = none) (hwrite : w.writeErr = none) :
    writesOf (Upstash.Producer t w).trace =
        [(⟨w.TCP (w.env "KAFKA_URL"), t,
            ⟨"scram.SHA256", w.env "KAFKA_USERNAME", w.env "KAFKA_PASSWORD"⟩, true⟩,
          [⟨"second", "test"⟩])] ∧
      callsOf Api.osGetenv (Upstash.Producer t w).trace =
        [(["KAFKA_URL"], none), (["KAFKA_USERNAME"], none), (["KAFKA_PASSWORD"], none)] ∧
      (Upstash.Producer t w).trace =
        [Effect.call Api.osGetenv ["KAFKA_URL"] none,
         Effect.call Api.osGetenv ["KAFKA_USERNAME"] none,
         Effect.call Api.osGetenv ["KAFKA_PASSWORD"] none,
         Effect.call Api.scramMechanism
           ["scram.SHA256", w.env "KAFKA_USERNAME", w.env "KAFKA_PASSWORD"] none,
         Effect.writeMessages
           ⟨w.TCP (w.env "KAFKA_URL"), t,
             ⟨"scram.SHA256", w.env "KAFKA_USERNAME", w.env "KAFKA_PASSWORD"⟩, true⟩
           [⟨"second", "test"⟩] none,
         Effect.call Api.kafkaWriterClose [] none] ∧
      (Upstash.Producer t w).outcome = Outcome.returned := by
  have htrace : (Upstash.Producer t w).trace =
      [Effect.call Api.osGetenv ["KAFKA_URL"] none,
       Effect.call Api.osGetenv ["KAFKA_USERNAME"] none,
       Effect.call Api.osGetenv ["KAFKA_PASSWORD"] none,
       Effect.call Api.scramMechanism
         ["scram.SHA256", w.env "KAFKA_USERNAME", w.env "KAFKA_PASSWORD"] none,
       Effect.writeMessages
         ⟨w.TCP (w.env "KAFKA_URL"), t,
           ⟨"scram.SHA256", w.env "KAFKA_USERNAME", w.env "KAFKA_PASSWORD"⟩, true⟩
         [⟨"second", "test"⟩] none,
       Effect.call Api.kafkaWriterClose [] none] := by
    simp [Upstash.Producer, hmechanism, hwrite, Run.after]
  refine ⟨?_, ?_, htrace, ?_⟩
  · rw [htrace]; simp [writesOf]
  · rw [htrace]; simp [callsOf]
  · simp [Upstash.Producer, hmechanism, hwrite, Run.after]

/-- C8 amended, at the topic "coins" of `main` and an environment that sets
the three variables, the address naming its port (`kafka.TCP` keeps such an
address as it is). -/
theorem upstash_producer_writes_one_message_witness :
    writesOf (Upstash.main
      ⟨fun name => if name = "KAFKA_URL" then "broker:9092"
        else if name = "KAFKA_USERNAME" then "alice"
        else if name = "KAFKA_PASSWORD" then "secret" else "",
       fun address => address, none, none⟩).trace =
      [(⟨"broker:9092", "coins", ⟨"scram.SHA256", "alice", "secret"⟩, true⟩,
        [⟨"second", "test"⟩])] :=
  (upstash_producer_writes_one_message "coins"
    ⟨fun name => if name = "KAFKA_URL" then "broker:9092"
      else if name = "KAFKA_USERNAME" then "alice"
      else if name = "KAFKA_PASSWORD" then "secret" else "",
     fun address => address, none, none⟩ rfl rfl).1

/-- C9: in the Kafka producer of coins.go, on every run in which `NewProducer`
and `Produce` return no error the main goroutine produces, flushes, prints
"Message sent successfully" and returns, closing the producer; the run of the
main goroutine is the same whatever `Flush` returns and whatever events,
failed delivery reports among them, arrive on `producer.Events()`. -/
theorem coins_success_line_ignores_delivery (w : Coins.World)
    (hnew : w.newProducerErr = none) (hproduce : w.produceErr = none) :
    (Coins.main w).trace =
        [Effect.call Api.kafkaNewProducer ["bootstrap.servers", "localhost:9094"] none,
         Effect.call Api.kafkaProduce ["reevu.test", "Hello, Kafka!"] none,
         Effect.call Api.kafkaFlush ["15000"] none,
         Effect.print "Message sent successfully\n",
         Effect.call Api.kafkaClose [] none] ∧
      printsOf (Coins.main w).trace = ["Message sent successfully\n"] ∧
      (Coins.main w).outcome = Outcome.returned ∧
      ∀ (flushResult : Nat) (events : List Coins.Event),
        Coins.main ⟨w.newProducerErr, w.produceErr, flushResult, events⟩ = Coins.main w := by
  obtain ⟨newProducerErr, produceErr, flushResult, events⟩ := w
  simp only at hnew hproduce
  subst hnew hproduce
  refine ⟨?_, ?_, ?_, ?_⟩
  · simp [Coins.main, Run.after, Run.defer, Run.exit]
  · simp [Coins.main, Run.after, Run.defer, Run.exit, printsOf]
  · simp [Coins.main, Run.after, Run.defer, Run.exit]
  · intro f ev
    rfl

/-- C9, at a run whose delivery report carries an error and whose `Flush`
times out with one message outstanding: the goroutine prints the failure and
the main goroutine prints the success line. -/
theorem coins_success_line_ignores_delivery_witness :
    Coins.reporter ⟨none, none, 1, [Coins.Event.message (some "Local: Message timed out")
        "reevu.test" 0 "unset"]⟩ =
        [Effect.print "Failed to deliver message: Local: Message timed out\n"] ∧
      printsOf (Coins.main ⟨none, none, 1, [Coins.Event.message
        (some "Local: Message timed out") "reevu.test" 0 "unset"]⟩).trace =
        ["Message sent successfully\n"] :=
  ⟨by decide,
   (coins_success_line_ignores_delivery ⟨none, none, 1, [Coins.Event.message
      (some "Local: Message timed out") "reevu.test" 0 "unset"]⟩ rfl rfl).2.1⟩

/-! ## Lemmas on the structure of runs -/

theorem all_after (p : Effect → Bool) (pre : List Effect) (r : Run)
    (hpre : pre.all p = true) (hr : r.trace.all p = true) :
    (Run.after pre r).trace.all p = true := by
  simp only [Run.after, List.all_append, hpre, hr, Bool.and_self]

theorem all_defer (p : Effect → Bool) (d : Effect) (r : Run)
    (hd : p d = true) (hr : r.trace.all p = true) :
    (Run.defer d r).trace.all p = true := by
  unfold Run.defer
  split <;> simp_all

theorem all_exit (p : Effect → Bool) (r : Run)
    (hp : ∀ v, p (Effect.panic v) = true) (hr : r.trace.all p = true) :
    (Run.exit r).trace.all p = true := by
  unfold Run.exit
  split <;> simp_all

theorem callsOf_defer (a : Api) (d : Effect) (r : Run) (hd : callsOf a [d] = []) :
    callsOf a (Run.defer d r).trace = callsOf a r.trace := by
  unfold Run.defer
  split <;> simp [callsOf_append, hd]

/-! ## Acknowledgement -/

theorem activemqConsumer_loop_all (p : Effect → Bool)
    (hrecv : p (Effect.call Api.stompChanRecv [] none) = true)
    (hlog : ∀ line, p (Effect.log line) = true) (l : List ActivemqConsumer.Delivery) :
    (ActivemqConsumer.loop l).trace.all p = true := by
  induction l with
  | nil => rfl
  | cons d rest ih =>
    cases d with
    | closed => simp [ActivemqConsumer.loop, hrecv, hlog]
    | value v =>
      cases v <;>
        (rw [ActivemqConsumer.loop]
         exact all_after _ _ _ (by simp [hrecv, hlog]) ih)

theorem nsqConsumer_serve_all (p : Effect → Bool)
    (hcall : p (Effect.call Api.nsqHandleMessage [] none) = true)
    (hlog : ∀ line, p (Effect.log line) = true) (l : List (Option NsqConsumer.Message)) :
    (NsqConsumer.serve l).trace.all p = true := by
  induction l with
  | nil => rfl
  | cons m rest ih =>
    cases m with
    | none => simp [NsqConsumer.serve, NsqConsumer.handler, hcall]
    | some msg =>
      rw [NsqConsumer.serve]
      exact all_after _ _ _ (by simp [NsqConsumer.handler, hcall, hlog]) ih

theorem redisSub_loop_all (p : Effect → Bool)
    (hrecv : p (Effect.call Api.redisChanRecv [] none) = true)
    (hprint : ∀ text, p (Effect.print text) = true) (l : List RedisSub.Delivery) :
    (RedisSub.loop l).trace.all p = true := by
  induction l with
  | nil => rfl
  | cons d rest ih =>
    cases d with
    | closed => simp [RedisSub.loop, hrecv]
    | value v =>
      cases v with
      | none => simp [RedisSub.loop, hrecv]
      | some msg =>
        rw [RedisSub.loop]
        exact all_after _ _ _ (by simp [hrecv, hprint]) ih

theorem pulsarConsumer_loop_all (p : Effect → Bool)
    (hrecv : ∀ err, p (Effect.call Api.pulsarReceive [] err) = true)
    (hack : ∀ args, p (Effect.call Api.pulsarAck args none) = true)
    (hlog : ∀ line, p (Effect.log line) = true)
    (hfatal : ∀ line, p (Effect.fatal line) = true)
    (l : List (Except String PulsarConsumer.Message)) :
    (PulsarConsumer.loop l).trace.all p = true := by
  induction l with
  | nil => rfl
  | cons r rest ih =>
    cases r with
    | error e => simp [PulsarConsumer.loop, hrecv, hfatal]
    | ok msg =>
      rw [PulsarConsumer.loop]
      exact all_after _ _ _ (by simp [hrecv, hack, hlog]) ih

theorem pulsarProducer_sendLoop_all (p : Effect → Bool)
    (hsend : ∀ args err, p (Effect.call Api.pulsarSend args err) = true)
    (hprint : ∀ text, p (Effect.print text) = true)
    (hfatal : ∀ line, p (Effect.fatal line) = true)
    (sendErr : Nat → Option String) (fuel : Nat) :
    ∀ i, (PulsarProducer.sendLoop sendErr fuel i).trace.all p = true := by
  induction fuel with
  | zero => intro i; rfl
  | succ fuel ih =>
    intro i
    rw [PulsarProducer.sendLoop]
    split
    · split
      · simp [hsend, hfatal]
      · exact all_after _ _ _ (by simp [hsend, hprint]) (ih (i + 1))
    · rfl

theorem redisPub_loop_all (p : Effect → Bool)
    (hpublish : ∀ args err, p (Effect.call Api.redisPublish args err) = true)
    (hsleep : ∀ args, p (Effect.call Api.timeSleep args none) = true)
    (l : List (Option String)) :
    (RedisPub.loop l).trace.all p = true := by
  induction l with
  | nil => rfl
  | cons r rest ih =>
    cases r with
    | some e => simp [RedisPub.loop, hpublish]
    | none =>
      rw [RedisPub.loop]
      exact all_after _ _ _ (by simp [hpublish, hsleep]) ih

theorem pulsarConsumer_loop_messages (msgs : List PulsarConsumer.Message) :
    PulsarConsumer.loop (msgs.map Except.ok) =
      ⟨msgs.flatMap (fun msg =>
        [Effect.call Api.pulsarReceive [] none,
         Effect.call Api.pulsarAck [msg.Payload] none,
         Effect.log ("Received message: " ++ msg.Payload)]), Outcome.running⟩ := by
  induction msgs with
  | nil => rfl
  | cons msg msgs ih =>
    rw [List.map_cons, PulsarConsumer.loop, ih, List.flatMap_cons]
    rfl

theorem pulsarConsumer_loop_acks (msgs : List PulsarConsumer.Message)
    (rest : List (Except String PulsarConsumer.Message))
    (hrest : rest = [] ∨ ∃ e more, rest = Except.error e :: more) :
    callsOf Api.pulsarAck (PulsarConsumer.loop (msgs.map Except.ok ++ rest)).trace =
      msgs.map (fun msg => ([msg.Payload], none)) := by
  induction msgs with
  | nil =>
    rcases hrest with h | ⟨e, more, h⟩ <;> subst h <;> simp [PulsarConsumer.loop, callsOf]
  | cons msg msgs ih =>
    rw [List.map_cons, List.cons_append, PulsarConsumer.loop]
    simp [Run.after, callsOf, ih]

/-- C4, the claim as stated fails: the Pulsar consumer, given one message,
calls `consumer.Ack` on it. -/
theorem pulsar_consumer_acknowledges_explicitly :
    PulsarConsumer.main ⟨none, none, [Except.ok ⟨"m1"⟩]⟩ =
        ⟨[Effect.call Api.pulsarNewClient ["pulsar://localhost:6650"] none,
          Effect.call Api.pulsarSubscribe ["my-topic", "my-subscription", "pulsar.Exclusive"]
            none,
          Effect.call Api.pulsarReceive [] none,
          Effect.call Api.pulsarAck ["m1"] none,
          Effect.log "Received message: m1"], Outcome.running⟩ ∧
      ∃ x ∈ (PulsarConsumer.main ⟨none, none, [Except.ok ⟨"m1"⟩]⟩).trace, x.isAck = true :=
  ⟨by decide, Effect.call Api.pulsarAck ["m1"] none, by decide, rfl⟩

/-- C4, amended: the ActiveMQ consumer, the NSQ consumer and the Redis
subscriber make no acknowledge call on any run; the Pulsar consumer, once its
setup has succeeded, calls `consumer.Ack` once on each message that `Receive`
returns, in order, up to the end of the observed run or the first error of
`Receive`, each `Ack` coming after the `Receive` of its message and before
the line logged for it. -/
theorem consumers_acknowledgement :
    (∀ w : ActivemqConsumer.World, ∀ x ∈ (ActivemqConsumer.main w).trace, x.isAck = false) ∧
    (∀ w : NsqConsumer.World, ∀ x ∈ (NsqConsumer.main w).trace, x.isAck = false) ∧
    (∀ w : RedisSub.World, ∀ x ∈ (RedisSub.main w).trace, x.isAck = false) ∧
    (∀ (w : PulsarConsumer.World) (msgs : List PulsarConsumer.Message)
        (rest : List (Except String PulsarConsumer.Message)),
      w.newClientErr = none → w.subscribeErr = none →
      w.received = msgs.map Except.ok ++ rest →
      (rest = [] ∨ ∃ e more, rest = Except.error e :: more) →
      callsOf Api.pulsarAck (PulsarConsumer.main w).trace =
        msgs.map (fun msg => ([msg.Payload], none))) ∧
    (∀ msgs : List PulsarConsumer.Message,
      PulsarConsumer.main ⟨none, none, msgs.map Except.ok⟩ =
        ⟨[Effect.call Api.pulsarNewClient ["pulsar://localhost:6650"] none,
          Effect.call Api.pulsarSubscribe ["my-topic", "my-subscription", "pulsar.Exclusive"]
            none] ++
         msgs.flatMap (fun msg =>
          [Effect.call Api.pulsarReceive [] none,
           Effect.call Api.pulsarAck [msg.Payload] none,
           Effect.log ("Received message: " ++ msg.Payload)]), Outcome.running⟩) := by
  refine ⟨?_, ?_, ?_, ?_, ?_⟩
  · intro w
    have h : (ActivemqConsumer.main w).trace.all (fun x => !x.isAck) = true := by
      obtain ⟨dialErr, connectErr, subscribeErr, inbound⟩ := w
      cases dialErr <;> cases connectErr <;> cases subscribeErr <;>
        simp only [ActivemqConsumer.main] <;>
        first
          | rfl
          | exact all_after _ _ _ rfl (all_defer _ _ _ rfl (all_after _ _ _ rfl
              (all_defer _ _ _ rfl (activemqConsumer_loop_all _ rfl (fun _ => rfl) inbound))))
    intro x hx
    simpa using List.all_eq_true.mp h x hx
  · intro w
    have h : (NsqConsumer.main w).trace.all (fun x => !x.isAck) = true := by
      obtain ⟨newConsumerErr, connectErr, delivered⟩ := w
      cases newConsumerErr <;> cases connectErr <;>
        simp only [NsqConsumer.main] <;>
        first
          | rfl
          | exact all_exit _ _ (fun _ => rfl) (all_after _ _ _ rfl (all_after _ _ _ rfl
              (nsqConsumer_serve_all _ rfl (fun _ => rfl) delivered)))
    intro x hx
    simpa using List.all_eq_true.mp h x hx
  · intro w
    have h : (RedisSub.main w).trace.all (fun x => !x.isAck) = true := by
      obtain ⟨receiveErr, inbound⟩ := w
      cases receiveErr <;>
        simp only [RedisSub.main] <;>
        first
          | exact all_exit _ _ (fun _ => rfl) (all_after _ _ _ rfl (all_defer _ _ _ rfl
              (all_after _ _ _ rfl (redisSub_loop_all _ rfl (fun _ => rfl) inbound))))
          | exact all_exit _ _ (fun _ => rfl) (all_after _ _ _ rfl (all_defer _ _ _ rfl rfl))
    intro x hx
    simpa using List.all_eq_true.mp h x hx
  · intro w msgs rest hclient hsubscribe hreceived hrest
    obtain ⟨newClientErr, subscribeErr, received⟩ := w
    simp only at hclient hsubscribe hreceived
    subst hclient hsubscribe hreceived
    have hloop := pulsarConsumer_loop_acks msgs rest hrest
    simp only [PulsarConsumer.main, Run.after]
    rw [callsOf_append, callsOf_defer Api.pulsarAck (Effect.call Api.pulsarClientClose [] none) _ rfl,
      callsOf_append, callsOf_defer Api.pulsarAck (Effect.call Api.pulsarConsumerClose [] none) _ rfl,
      hloop]
    simp [callsOf]
  · intro msgs
    simp [PulsarConsumer.main, pulsarConsumer_loop_messages, Run.after, Run.defer]

/-- C4 amended, at a Pulsar run of two messages followed by an error of
`Receive`: two `Ack` calls. -/
theorem consumers_acknowledgement_witness :
    callsOf Api.pulsarAck (PulsarConsumer.main
      ⟨none, none, [Except.ok ⟨"m1"⟩, Except.ok ⟨"m2"⟩, Except.error "closed"]⟩).trace =
      [(["m1"], none), (["m2"], none)] :=
  consumers_acknowledgement.2.2.2.1
    ⟨none, none, [Except.ok ⟨"m1"⟩, Except.ok ⟨"m2"⟩, Except.error "closed"]⟩
    [⟨"m1"⟩, ⟨"m2"⟩] [Except.error "closed"] rfl rfl rfl (Or.inr ⟨"closed", [], rfl⟩)

/-! ## Release of the connection -/

theorem redisPub_loop_all_ok (l : List (Option String)) (hok : ∀ r ∈ l, r = none) :
    (RedisPub.loop l).outcome = Outcome.running ∧
      (RedisPub.loop l).trace.all (fun x => !x.isRelease) = true ∧
      callsOf Api.redisPublish (RedisPub.loop l).trace =
        l.map (fun _ => (["mychannel", "Hello, Redis!"], none)) := by
  induction l with
  | nil => exact ⟨rfl, rfl, rfl⟩
  | cons r rest ih =>
    have hr : r = none := hok r (List.mem_cons_self r rest)
    subst hr
    obtain ⟨h1, h2, h3⟩ := ih (fun r hr => hok r (List.mem_cons_of_mem _ hr))
    rw [RedisPub.loop]
    refine ⟨h1, all_after _ _ _ rfl h2, ?_⟩
    simp [Run.after, callsOf, h3]

/-- C5, the claim as stated fails for the Redis publisher: on the run of two
successful `Publish` calls it is still in its loop, and on no run in which
every `Publish` succeeds does `main` return or release the client. -/
theorem redis_publisher_never_closes :
    RedisPub.main ⟨[none, none]⟩ =
        ⟨[Effect.call Api.redisNewClient ["localhost:6379"] none,
          Effect.call Api.redisPublish ["mychannel", "Hello, Redis!"] none,
          Effect.call Api.timeSleep ["1s"] none,
          Effect.call Api.redisPublish ["mychannel", "Hello, Redis!"] none,
          Effect.call Api.timeSleep ["1s"] none], Outcome.running⟩ ∧
      ¬ ∃ published : List (Option String), (∀ r ∈ published, r = none) ∧
        ((RedisPub.main ⟨published⟩).outcome = Outcome.returned ∨
          ∃ x ∈ (RedisPub.main ⟨published⟩).trace, x.isRelease = true) := by
  refine ⟨by decide, ?_⟩
  rintro ⟨published, hok, h⟩
  obtain ⟨h1, h2, _⟩ := redisPub_loop_all_ok published hok
  have hout : (RedisPub.main ⟨published⟩).outcome = Outcome.running := by
    simp [RedisPub.main, Run.exit, Run.after, h1]
  have hall : (RedisPub.main ⟨published⟩).trace.all (fun x => !x.isRelease) = true :=
    all_exit _ _ (fun _ => rfl) (all_after _ _ _ rfl h2)
  rcases h with h | ⟨x, hx, hrel⟩
  · rw [hout] at h
    exact Outcome.noConfusion h
  · have := List.all_eq_true.mp hall x hx
    simp [hrel] at this

/-- C5, amended: on the run in which every library call succeeds, the
ActiveMQ producer, the Kafka producers of coins.go and of upstash.go, the NSQ
producer and the Pulsar producer send their fixed payloads, release the
connection (`Disconnect`, `Close`, `Stop`) after the last send, and `main`
returns.  The Redis publisher publishes its fixed payload in an endless loop,
sleeping one second after each `Publish`: while every `Publish` succeeds it
makes no release call and `main` does not return. -/
theorem producers_connect_send_close :
    ActivemqProducer.main ⟨none, none, none⟩ =
        ⟨[Effect.call Api.netDial ["tcp", "localhost:61613"] none,
          Effect.call Api.stompConnect [] none,
          Effect.call Api.stompSend ["/queue/test", "text/plain", "Hello, ActiveMQ!"] none,
          Effect.log "Message sent to /queue/test: Hello, ActiveMQ!",
          Effect.call Api.stompDisconnect [] none], Outcome.returned⟩ ∧
    (∀ (flushResult : Nat) (events : List Coins.Event),
      Coins.main ⟨none, none, flushResult, events⟩ =
        ⟨[Effect.call Api.kafkaNewProducer ["bootstrap.servers", "localhost:9094"] none,
          Effect.call Api.kafkaProduce ["reevu.test", "Hello, Kafka!"] none,
          Effect.call Api.kafkaFlush ["15000"] none,
          Effect.print "Message sent successfully\n",
          Effect.call Api.kafkaClose [] none], Outcome.returned⟩) ∧
    (∀ (t : String) (env TCP : String → String),
      Upstash.Producer t ⟨env, TCP, none, none⟩ =
        ⟨[Effect.call Api.osGetenv ["KAFKA_URL"] none,
          Effect.call Api.osGetenv ["KAFKA_USERNAME"] none,
          Effect.call Api.osGetenv ["KAFKA_PASSWORD"] none,
          Effect.call Api.scramMechanism
            ["scram.SHA256", env "KAFKA_USERNAME", env "KAFKA_PASSWORD"] none,
          Effect.writeMessages
            ⟨TCP (env "KAFKA_URL"), t,
              ⟨"scram.SHA256", env "KAFKA_USERNAME", env "KAFKA_PASSWORD"⟩, true⟩
            [⟨"second", "test"⟩] none,
          Effect.call Api.kafkaWriterClose [] none], Outcome.returned⟩) ∧
    NsqProducer.main ⟨none, none⟩ =
        ⟨[Effect.call Api.nsqNewProducer ["localhost:4150"] none,
          Effect.call Api.nsqPublish ["test", "Hello NSQ!"] none,
          Effect.log "Message published: Hello NSQ!",
          Effect.call Api.nsqStop [] none], Outcome.returned⟩ ∧
    (∀ sendErr : Nat → Option String, (∀ i, i < 10 → sendErr i = none) →
      PulsarProducer.main ⟨none, none, sendErr⟩ =
        ⟨[Effect.call Api.pulsarNewClient ["pulsar://localhost:6650"] none,
          Effect.call Api.pulsarCreateProducer ["my-topic"] none] ++
         (List.range 10).flatMap (fun i =>
          [Effect.call Api.pulsarSend ["hello-" ++ toString i] none,
           Effect.print ("Produced message: hello-" ++ toString i ++ "\n")]) ++
         [Effect.call Api.pulsarProducerClose [] none,
          Effect.call Api.pulsarClientClose [] none], Outcome.returned⟩) ∧
    (∀ published : List (Option String), (∀ r ∈ published, r = none) →
      (RedisPub.main ⟨published⟩).outcome = Outcome.running ∧
      (∀ x ∈ (RedisPub.main ⟨published⟩).trace, x.isRelease = false) ∧
      callsOf Api.redisPublish (RedisPub.main ⟨published⟩).trace =
        published.map (fun _ => (["mychannel", "Hello, Redis!"], none))) := by
  refine ⟨by decide, ?_, ?_, by decide, ?_, ?_⟩
  · intro flushResult events
    rfl
  · intro t env TCP
    rfl
  · intro sendErr hok
    have hloop := PulsarProducer.sendLoop_all_ok sendErr 11 0 (by omega) (by omega)
      (fun j _ hj => hok j hj)
    simp [PulsarProducer.main, hloop, Run.after, Run.defer, List.range_eq_range',
      PulsarProducer.topic]
    rfl
  · intro published hok
    obtain ⟨h1, h2, h3⟩ := redisPub_loop_all_ok published hok
    have hall : (RedisPub.main ⟨published⟩).trace.all (fun x => !x.isRelease) = true :=
      all_exit _ _ (fun _ => rfl) (all_after _ _ _ rfl h2)
    refine ⟨?_, ?_, ?_⟩
    · simp [RedisPub.main, Run.exit, Run.after, h1]
    · intro x hx
      simpa using List.all_eq_true.mp hall x hx
    · simp [RedisPub.main, Run.exit, Run.after, h1, callsOf, h3]

/-- C5 amended, at the Pulsar run in which every `Send` succeeds and at the
Redis run of three successful `Publish` calls. -/
theorem producers_connect_send_close_witness :
    (PulsarProducer.main ⟨none, none, fun _ => none⟩).outcome = Outcome.returned ∧
      (RedisPub.main ⟨[none, none, none]⟩).outcome = Outcome.running :=
  ⟨by rw [producers_connect_send_close.2.2.2.2.1 (fun _ => none) (fun _ _ => rfl)],
   (producers_connect_send_close.2.2.2.2.2 [none, none, none] (by decide)).1⟩

/-! ## End of the consumers -/

theorem activemqConsumer_loop_outcome (l : List ActivemqConsumer.Delivery) :
    (ActivemqConsumer.Delivery.closed ∈ l →
        (ActivemqConsumer.loop l).outcome = Outcome.returned) ∧
      (ActivemqConsumer.Delivery.closed ∉ l →
        (ActivemqConsumer.loop l).outcome = Outcome.running) := by
  induction l with
  | nil => simp [ActivemqConsumer.loop]
  | cons d rest ih =>
    cases d with
    | closed => simp [ActivemqConsumer.loop]
    | value v => cases v <;> simpa [ActivemqConsumer.loop, Run.after] using ih

theorem redisSub_loop_outcome (l : List RedisSub.Delivery) :
    (RedisSub.loop l).outcome = Outcome.returned ↔
      ∃ (msgs : List RedisSub.Message) (more : List RedisSub.Delivery),
        l = msgs.map (fun msg => RedisSub.Delivery.value (some msg)) ++
        RedisSub.Delivery.closed :: more := by
  induction l with
  | nil => simp [RedisSub.loop]
  | cons d rest ih =>
    cases d with
    | closed =>
      simp only [RedisSub.loop, true_iff]
      exact ⟨[], rest, rfl⟩
    | value v =>
      cases v with
      | none =>
        simp only [RedisSub.loop]
        constructor
        · intro h
          exact Outcome.noConfusion h
        · rintro ⟨msgs, more, h⟩
          cases msgs <;> simp at h
      | some msg =>
        rw [RedisSub.loop]
        simp only [Run.after]
        rw [ih]
        constructor
        · rintro ⟨msgs, more, h⟩
          exact ⟨msg :: msgs, more, by simp [h]⟩
        · rintro ⟨msgs, more, h⟩
          cases msgs with
          | nil => simp at h
          | cons m msgs =>
            simp only [List.map_cons, List.cons_append, List.cons.injEq] at h
            exact ⟨msgs, more, h.2⟩

theorem nsqConsumer_serve_outcome (l : List (Option NsqConsumer.Message)) :
    (NsqConsumer.serve l).outcome ≠ Outcome.returned := by
  induction l with
  | nil => simp [NsqConsumer.serve]
  | cons m rest ih =>
    cases m with
    | none => simp [NsqConsumer.serve, NsqConsumer.handler]
    | some msg => simpa [NsqConsumer.serve, NsqConsumer.handler, Run.after] using ih

theorem pulsarConsumer_loop_outcome (l : List (Except String PulsarConsumer.Message)) :
    (PulsarConsumer.loop l).outcome ≠ Outcome.returned := by
  induction l with
  | nil => simp [PulsarConsumer.loop]
  | cons r rest ih =>
    cases r with
    | error e => simp [PulsarConsumer.loop]
    | ok msg => simpa [PulsarConsumer.loop, Run.after] using ih

/-- C6, the claim as stated fails: after a successful setup, a closed channel
ends the loop of the ActiveMQ consumer and of the Redis subscriber; the
deferred calls run and `main` returns. -/
theorem closed_channel_ends_consumer :
    ActivemqConsumer.main ⟨none, none, none, [ActivemqConsumer.Delivery.closed]⟩ =
        ⟨[Effect.call Api.netDial ["tcp", "localhost:61613"] none,
          Effect.call Api.stompConnect [] none,
          Effect.call Api.stompSubscribe ["/queue/test", "stomp.AckAuto"] none,
          Effect.call Api.stompChanRecv [] none,
          Effect.log "Subscription channel closed",
          Effect.call Api.stompUnsubscribe [] none,
          Effect.call Api.stompDisconnect [] none], Outcome.returned⟩ ∧
      RedisSub.main ⟨none, [RedisSub.Delivery.closed]⟩ =
        ⟨[Effect.call Api.redisNewClient ["localhost:6379"] none,
          Effect.call Api.redisSubscribe ["mychannel"] none,
          Effect.call Api.redisReceive [] none,
          Effect.call Api.redisChannel [] none,
          Effect.call Api.redisChanRecv [] none,
          Effect.call Api.redisPubSubClose [] none], Outcome.returned⟩ := by
  constructor <;> decide

/-- C6, amended: no sequence of inbound events makes `main` of the NSQ
consumer or of the Pulsar consumer return.  After a successful setup, `main`
of the ActiveMQ consumer returns exactly when the channel `sub.C` is closed,
and is otherwise still in its loop whatever messages and nil messages have
arrived; `main` of the Redis subscriber returns exactly when its channel is
closed after a sequence of messages. -/
theorem consumers_blocking :
    (∀ w : NsqConsumer.World, (NsqConsumer.main w).outcome ≠ Outcome.returned) ∧
    (∀ w : PulsarConsumer.World, (PulsarConsumer.main w).outcome ≠ Outcome.returned) ∧
    (∀ w : ActivemqConsumer.World,
      w.dialErr = none → w.connectErr = none → w.subscribeErr = none →
      ((ActivemqConsumer.main w).outcome = Outcome.returned ↔
        ActivemqConsumer.Delivery.closed ∈ w.inbound) ∧
      (ActivemqConsumer.Delivery.closed ∉ w.inbound →
        (ActivemqConsumer.main w).outcome = Outcome.running)) ∧
    (∀ w : RedisSub.World, w.receiveErr = none →
      ((RedisSub.main w).outcome = Outcome.returned ↔
        ∃ (msgs : List RedisSub.Message) (more : List RedisSub.Delivery), w.inbound =
          msgs.map (fun msg => RedisSub.Delivery.value (some msg)) ++
            RedisSub.Delivery.closed :: more)) := by
  refine ⟨?_, ?_, ?_, ?_⟩
  · intro w
    obtain ⟨newConsumerErr, connectErr, delivered⟩ := w
    rw [NsqConsumer.main, outcome_exit]
    cases newConsumerErr with
    | some e => simp
    | none =>
      cases connectErr with
      | some e => simp [Run.after]
      | none => simpa [Run.after] using nsqConsumer_serve_outcome delivered
  · intro w
    obtain ⟨newClientErr, subscribeErr, received⟩ := w
    rw [PulsarConsumer.main]
    cases newClientErr with
    | some e => simp
    | none =>
      cases subscribeErr with
      | some e => simp [Run.after, outcome_defer]
      | none =>
        simpa [Run.after, outcome_defer] using pulsarConsumer_loop_outcome received
  · intro w hdial hconnect hsubscribe
    obtain ⟨dialErr, connectErr, subscribeErr, inbound⟩ := w
    simp only at hdial hconnect hsubscribe
    subst hdial hconnect hsubscribe
    have hout : (ActivemqConsumer.main ⟨none, none, none, inbound⟩).outcome =
        (ActivemqConsumer.loop inbound).outcome := by
      simp [ActivemqConsumer.main, Run.after, outcome_defer]
    have h := activemqConsumer_loop_outcome inbound
    rw [hout]
    refine ⟨⟨?_, h.1⟩, h.2⟩
    intro hret
    by_contra hnot
    rw [h.2 hnot] at hret
    exact Outcome.noConfusion hret
  · intro w hreceive
    obtain ⟨receiveErr, inbound⟩ := w
    simp only at hreceive
    subst hreceive
    have hout : (RedisSub.main ⟨none, inbound⟩).outcome = (RedisSub.loop inbound).outcome := by
      simp [RedisSub.main, Run.after, outcome_defer, outcome_exit]
    rw [hout]
    exact redisSub_loop_outcome inbound

/-- C6 amended, at an ActiveMQ run of a message and a nil message with the
channel still open: the consumer is still in its loop. -/
theorem consumers_blocking_witness :
    (ActivemqConsumer.main ⟨none, none, none,
      [ActivemqConsumer.Delivery.value (some ⟨"a"⟩),
       ActivemqConsumer.Delivery.value none]⟩).outcome = Outcome.running :=
  (consumers_blocking.2.2.1
    ⟨none, none, none,
      [ActivemqConsumer.Delivery.value (some ⟨"a"⟩), ActivemqConsumer.Delivery.value none]⟩
    rfl rfl rfl).2 (by decide)

/-! ## Setup errors -/

theorem setupErrorIsFatal_of_all (r : Run)
    (h : r.trace.all (fun x => !x.failedSetup) = true) : SetupErrorIsFatal r := by
  have hall : ∀ x ∈ r.trace, x.failedSetup = false := by
    intro x hx
    simpa using List.all_eq_true.mp h x hx
  constructor
  · rw [List.Pairwise.imp_mem]
    apply List.pairwise_of_forall
    intro x y hx _ hfx
    rw [hall x hx] at hfx
    exact Bool.noConfusion hfx
  · rintro ⟨x, hx, hfx⟩
    rw [hall x hx] at hfx
    exact Bool.noConfusion hfx

theorem activemqProducer_setup (w : ActivemqProducer.World) :
    SetupErrorIsFatal (ActivemqProducer.main w) := by
  obtain ⟨dialErr, connectErr, sendErr⟩ := w
  cases dialErr with
  | some e => simp [SetupErrorIsFatal, ActivemqProducer.main, Effect.failedSetup, Effect.brokerOp]
  | none =>
    cases connectErr with
    | some e =>
      simp [SetupErrorIsFatal, ActivemqProducer.main, Run.after, Effect.failedSetup,
        Effect.brokerOp]
    | none =>
      apply setupErrorIsFatal_of_all
      cases sendErr <;> rfl

theorem activemqConsumer_setup (w : ActivemqConsumer.World) :
    SetupErrorIsFatal (ActivemqConsumer.main w) := by
  obtain ⟨dialErr, connectErr, subscribeErr, inbound⟩ := w
  cases dialErr with
  | some e => simp [SetupErrorIsFatal, ActivemqConsumer.main, Effect.failedSetup, Effect.brokerOp]
  | none =>
    cases connectErr with
    | some e =>
      simp [SetupErrorIsFatal, ActivemqConsumer.main, Run.after, Effect.failedSetup,
        Effect.brokerOp]
    | none =>
      cases subscribeErr with
      | some e =>
        simp [SetupErrorIsFatal, ActivemqConsumer.main, Run.after, Run.defer,
          Effect.failedSetup, Effect.brokerOp]
      | none =>
        apply setupErrorIsFatal_of_all
        simp only [ActivemqConsumer.main]
        exact all_after _ _ _ rfl (all_after _ _ _ rfl (all_defer _ _ _ rfl
          (all_after _ _ _ rfl (all_defer _ _ _ rfl
            (activemqConsumer_loop_all _ rfl (fun _ => rfl) inbound)))))

theorem coins_setup (w : Coins.World) : SetupErrorIsFatal (Coins.main w) := by
  obtain ⟨newProducerErr, produceErr, flushResult, events⟩ := w
  cases newProducerErr with
  | some e =>
    simp [SetupErrorIsFatal, Coins.main, Run.exit, Effect.failedSetup, Effect.brokerOp]
  | none =>
    apply setupErrorIsFatal_of_all
    cases produceErr <;> rfl

theorem upstash_setup (t : String) (w : Upstash.World) :
    SetupErrorIsFatal (Upstash.Producer t w) := by
  obtain ⟨env, TCP, mechanismErr, writeErr⟩ := w
  cases mechanismErr with
  | some e =>
    simp [SetupErrorIsFatal, Upstash.Producer, Run.after, Effect.failedSetup, Effect.brokerOp]
  | none =>
    apply setupErrorIsFatal_of_all
    cases writeErr <;> rfl

theorem nsqProducer_setup (w : NsqProducer.World) :
    SetupErrorIsFatal (NsqProducer.main w) := by
  obtain ⟨newProducerErr, publishErr⟩ := w
  cases newProducerErr with
  | some e =>
    simp [SetupErrorIsFatal, NsqProducer.main, Effect.failedSetup, Effect.brokerOp]
  | none =>
    apply setupErrorIsFatal_of_all
    cases publishErr <;> rfl

theorem nsqConsumer_setup (w : NsqConsumer.World) :
    SetupErrorIsFatal (NsqConsumer.main w) := by
  obtain ⟨newConsumerErr, connectErr, delivered⟩ := w
  cases newConsumerErr with
  | some e =>
    simp [SetupErrorIsFatal, NsqConsumer.main, Run.exit, Effect.failedSetup, Effect.brokerOp]
  | none =>
    cases connectErr with
    | some e =>
      simp [SetupErrorIsFatal, NsqConsumer.main, Run.exit, Run.after, Effect.failedSetup,
        Effect.brokerOp]
    | none =>
      apply setupErrorIsFatal_of_all
      simp only [NsqConsumer.main]
      exact all_exit _ _ (fun _ => rfl) (all_after _ _ _ rfl (all_after _ _ _ rfl
        (nsqConsumer_serve_all _ rfl (fun _ => rfl) delivered)))

theorem redisPub_setup (w : RedisPub.World) : SetupErrorIsFatal (RedisPub.main w) := by
  apply setupErrorIsFatal_of_all
  simp only [RedisPub.main]
  exact all_exit _ _ (fun _ => rfl) (all_after _ _ _ rfl
    (redisPub_loop_all _ (fun _ err => by cases err <;> rfl) (fun _ => rfl) w.published))

theorem redisSub_setup (w : RedisSub.World) : SetupErrorIsFatal (RedisSub.main w) := by
  obtain ⟨receiveErr, inbound⟩ := w
  cases receiveErr with
  | some e =>
    simp [SetupErrorIsFatal, RedisSub.main, Run.exit, Run.after, Run.defer,
      Effect.failedSetup, Effect.brokerOp, Api.isSetup, Api.isBrokerOp]
  | none =>
    apply setupErrorIsFatal_of_all
    simp only [RedisSub.main]
    exact all_exit _ _ (fun _ => rfl) (all_after _ _ _ rfl (all_defer _ _ _ rfl
      (all_after _ _ _ rfl (redisSub_loop_all _ rfl (fun _ => rfl) inbound))))

theorem pulsarProducer_setup (w : PulsarProducer.World) :
    SetupErrorIsFatal (PulsarProducer.main w) := by
  obtain ⟨newClientErr, createProducerErr, sendErr⟩ := w
  cases newClientErr with
  | some e =>
    simp [SetupErrorIsFatal, PulsarProducer.main, Effect.failedSetup, Effect.brokerOp]
  | none =>
    cases createProducerErr with
    | some e =>
      simp [SetupErrorIsFatal, PulsarProducer.main, Run.after, Run.defer, Effect.failedSetup,
        Effect.brokerOp]
    | none =>
      apply setupErrorIsFatal_of_all
      simp only [PulsarProducer.main]
      exact all_after _ _ _ rfl (all_defer _ _ _ rfl (all_after _ _ _ rfl
        (all_defer _ _ _ rfl (pulsarProducer_sendLoop_all _
          (fun _ err => by cases err <;> rfl) (fun _ => rfl) (fun _ => rfl) sendErr 11 0))))

theorem pulsarConsumer_setup (w : PulsarConsumer.World) :
    SetupErrorIsFatal (PulsarConsumer.main w) := by
  obtain ⟨newClientErr, subscribeErr, received⟩ := w
  cases newClientErr with
  | some e =>
    simp [SetupErrorIsFatal, PulsarConsumer.main, Effect.failedSetup, Effect.brokerOp]
  | none =>
    cases subscribeErr with
    | some e =>
      simp [SetupErrorIsFatal, PulsarConsumer.main, Run.after, Run.defer, Effect.failedSetup,
        Effect.brokerOp]
    | none =>
      apply setupErrorIsFatal_of_all
      simp only [PulsarConsumer.main]
      exact all_after _ _ _ rfl (all_defer _ _ _ rfl (all_after _ _ _ rfl
        (all_defer _ _ _ rfl (pulsarConsumer_loop_all _
          (fun err => by cases err <;> rfl) (fun _ => rfl) (fun _ => rfl) (fun _ => rfl)
          received))))

/-- C2: in every program a setup call (dial, connect, creation of a mechanism,
client, producer or consumer, subscribe, confirmation of the subscription)
that returns an error ends the run with a message and nothing after it but
deferred releases.  First part: for every error `e` and each setup call that
can fail, the earlier calls having succeeded, the whole run: the failing call
is followed at once by the line of `log.Fatal` or `log.Fatalf` carrying `e`
and the exit, or, where the program calls `panic(err)` (coins.go,
redis/sub.go), by the deferred `Close` if one is pending and the report of
the panic carrying `e`.  Second part: on every run of every program no send,
publish, subscribe or receive comes after a setup call that returned an
error, and a run with such a call ends by `log.Fatal` or by a panic, the
last thing written being the fatal line or the report of the panic. -/
theorem setup_errors_are_fatal :
    (∀ e : String,
      (∀ c s, ActivemqProducer.main ⟨some e, c, s⟩ =
        ⟨[Effect.call Api.netDial ["tcp", "localhost:61613"] (some e),
          Effect.fatal ("failed to connect to ActiveMQ: " ++ e)], Outcome.fatal⟩) ∧
      (∀ s, ActivemqProducer.main ⟨none, some e, s⟩ =
        ⟨[Effect.call Api.netDial ["tcp", "localhost:61613"] none,
          Effect.call Api.stompConnect [] (some e),
          Effect.fatal ("failed to connect to STOMP server: " ++ e)], Outcome.fatal⟩) ∧
      (∀ c s l, ActivemqConsumer.main ⟨some e, c, s, l⟩ =
        ⟨[Effect.call Api.netDial ["tcp", "localhost:61613"] (some e),
          Effect.fatal ("failed to connect to ActiveMQ: " ++ e)], Outcome.fatal⟩) ∧
      (∀ s l, ActivemqConsumer.main ⟨none, some e, s, l⟩ =
        ⟨[Effect.call Api.netDial ["tcp", "localhost:61613"] none,
          Effect.call Api.stompConnect [] (some e),
          Effect.fatal ("failed to connect to STOMP server: " ++ e)], Outcome.fatal⟩) ∧
      (∀ l, ActivemqConsumer.main ⟨none, none, some e, l⟩ =
        ⟨[Effect.call Api.netDial ["tcp", "localhost:61613"] none,
          Effect.call Api.stompConnect [] none,
          Effect.call Api.stompSubscribe ["/queue/test", "stomp.AckAuto"] (some e),
          Effect.fatal ("failed to subscribe to queue: " ++ e)], Outcome.fatal⟩) ∧
      (∀ p f ev, Coins.main ⟨some e, p, f, ev⟩ =
        ⟨[Effect.call Api.kafkaNewProducer ["bootstrap.servers", "localhost:9094"] (some e),
          Effect.panic e], Outcome.panicked e⟩) ∧
      (∀ t env tcp wr, Upstash.Producer t ⟨env, tcp, some e, wr⟩ =
        ⟨[Effect.call Api.osGetenv ["KAFKA_URL"] none,
          Effect.call Api.osGetenv ["KAFKA_USERNAME"] none,
          Effect.call Api.osGetenv ["KAFKA_PASSWORD"] none,
          Effect.call Api.scramMechanism
            ["scram.SHA256", env "KAFKA_USERNAME", env "KAFKA_PASSWORD"] (some e),
          Effect.fatal ("could not create mechanism: " ++ e)], Outcome.fatal⟩) ∧
      (∀ p, NsqProducer.main ⟨some e, p⟩ =
        ⟨[Effect.call Api.nsqNewProducer ["localhost:4150"] (some e), Effect.fatal e],
         Outcome.fatal⟩) ∧
      (∀ c l, NsqConsumer.main ⟨some e, c, l⟩ =
        ⟨[Effect.call Api.nsqNewConsumer ["test", "test_channel"] (some e), Effect.fatal e],
         Outcome.fatal⟩) ∧
      (∀ l, NsqConsumer.main ⟨none, some e, l⟩ =
        ⟨[Effect.call Api.nsqNewConsumer ["test", "test_channel"] none,
          Effect.call Api.nsqAddHandler [] none,
          Effect.call Api.nsqConnectToNSQD ["localhost:4150"] (some e),
          Effect.fatal ("Connect error:" ++ e)], Outcome.fatal⟩) ∧
      (∀ l, RedisSub.main ⟨some e, l⟩ =
        ⟨[Effect.call Api.redisNewClient ["localhost:6379"] none,
          Effect.call Api.redisSubscribe ["mychannel"] none,
          Effect.call Api.redisReceive [] (some e),
          Effect.call Api.redisPubSubClose [] none,
          Effect.panic e], Outcome.panicked e⟩) ∧
      (∀ c s, PulsarProducer.main ⟨some e, c, s⟩ =
        ⟨[Effect.call Api.pulsarNewClient ["pulsar://localhost:6650"] (some e), Effect.fatal e],
         Outcome.fatal⟩) ∧
      (∀ s, PulsarProducer.main ⟨none, some e, s⟩ =
        ⟨[Effect.call Api.pulsarNewClient ["pulsar://localhost:6650"] none,
          Effect.call Api.pulsarCreateProducer ["my-topic"] (some e), Effect.fatal e],
         Outcome.fatal⟩) ∧
      (∀ s l, PulsarConsumer.main ⟨some e, s, l⟩ =
        ⟨[Effect.call Api.pulsarNewClient ["pulsar://localhost:6650"] (some e), Effect.fatal e],
         Outcome.fatal⟩) ∧
      (∀ l, PulsarConsumer.main ⟨none, some e, l⟩ =
        ⟨[Effect.call Api.pulsarNewClient ["pulsar://localhost:6650"] none,
          Effect.call Api.pulsarSubscribe ["my-topic", "my-subscription", "pulsar.Exclusive"]
            (some e), Effect.fatal e], Outcome.fatal⟩)) ∧
    ((∀ w, SetupErrorIsFatal (ActivemqProducer.main w)) ∧
      (∀ w, SetupErrorIsFatal (ActivemqConsumer.main w)) ∧
      (∀ w, SetupErrorIsFatal (Coins.main w)) ∧
      (∀ t w, SetupErrorIsFatal (Upstash.Producer t w)) ∧
      (∀ w, SetupErrorIsFatal (Upstash.main w)) ∧
      (∀ w, SetupErrorIsFatal (NsqProducer.main w)) ∧
      (∀ w, SetupErrorIsFatal (NsqConsumer.main w)) ∧
      (∀ w, SetupErrorIsFatal (RedisPub.main w)) ∧
      (∀ w, SetupErrorIsFatal (RedisSub.main w)) ∧
      (∀ w, SetupErrorIsFatal (PulsarProducer.main w)) ∧
      (∀ w, SetupErrorIsFatal (PulsarConsumer.main w))) := by
  refine ⟨fun e => ?_, activemqProducer_setup, activemqConsumer_setup, coins_setup,
    upstash_setup, fun w => upstash_setup "coins" w, nsqProducer_setup, nsqConsumer_setup,
    redisPub_setup, redisSub_setup, pulsarProducer_setup, pulsarConsumer_setup⟩
  refine ⟨?_, ?_, ?_, ?_, ?_, ?_, ?_, ?_, ?_, ?_, ?_, ?_, ?_, ?_, ?_⟩ <;> intros <;> rfl

/-- C2, at four runs with a failing setup call: `NewProducer` of the NSQ
producer (`log.Fatal`, the whole run), the subscribe of the ActiveMQ consumer
(`log.Fatalf`), `NewProducer` of coins.go (panic), and the confirmation of the
subscription of the Redis subscriber (panic, after the deferred `Close`). -/
theorem setup_errors_are_fatal_witness :
    NsqProducer.main ⟨some "connection refused", none⟩ =
      ⟨[Effect.call Api.nsqNewProducer ["localhost:4150"] (some "connection refused"),
        Effect.fatal "connection refused"], Outcome.fatal⟩ ∧
    RedisSub.main ⟨some "EOF", [RedisSub.Delivery.closed]⟩ =
      ⟨[Effect.call Api.redisNewClient ["localhost:6379"] none,
        Effect.call Api.redisSubscribe ["mychannel"] none,
        Effect.call Api.redisReceive [] (some "EOF"),
        Effect.call Api.redisPubSubClose [] none,
        Effect.panic "EOF"], Outcome.panicked "EOF"⟩ ∧
    ((∃ x ∈ (ActivemqConsumer.main ⟨none, none, some "denied",
          [ActivemqConsumer.Delivery.value (some ⟨"a"⟩)]⟩).trace, x.failedSetup = true) ∧
      SetupErrorIsFatal (ActivemqConsumer.main ⟨none, none, some "denied",
          [ActivemqConsumer.Delivery.value (some ⟨"a"⟩)]⟩)) ∧
    ((∃ x ∈ (Coins.main ⟨some "no broker", none, 0, []⟩).trace, x.failedSetup = true) ∧
      SetupErrorIsFatal (Coins.main ⟨some "no broker", none, 0, []⟩)) ∧
    ((∃ x ∈ (RedisSub.main ⟨some "EOF", [RedisSub.Delivery.closed]⟩).trace,
        x.failedSetup = true) ∧
      SetupErrorIsFatal (RedisSub.main ⟨some "EOF", [RedisSub.Delivery.closed]⟩)) :=
  ⟨(setup_errors_are_fatal.1 "connection refused").2.2.2.2.2.2.2.1 none,
   (setup_errors_are_fatal.1 "EOF").2.2.2.2.2.2.2.2.2.2.1 [RedisSub.Delivery.closed],
   ⟨⟨Effect.call Api.stompSubscribe ["/queue/test", "stomp.AckAuto"] (some "denied"),
      by decide, rfl⟩, setup_errors_are_fatal.2.2.1 _⟩,
   ⟨⟨Effect.call Api.kafkaNewProducer ["bootstrap.servers", "localhost:9094"]
      (some "no broker"), by decide, rfl⟩, setup_errors_are_fatal.2.2.2.1 _⟩,
   ⟨⟨Effect.call Api.redisReceive [] (some "EOF"), by decide, rfl⟩,
    setup_errors_are_fatal.2.2.2.2.2.2.2.2.2.1 _⟩⟩

end KafkaTest
